import Mathlib

/-!
Verification development for the real-time co-design session backend.

The definitions below are a shallow embedding of the Python source:
  * `backend/app/api/websocket/handler.py`
      (`ConnectionManager`, `SessionWebSocketHandler`, `websocket_endpoint`)
  * `backend/app/core/redis_client.py` (`RedisClient` presence/typing methods)
  * `backend/app/api/v1/sessions.py` (`start_session`, `advance_phase`)

Python dicts are embedded as association lists with Python's insertion-order
semantics (overwriting a key keeps its position; a fresh key is appended).
Python sets are embedded as duplicate-free lists.  WebSocket channels are
identified by natural numbers; `send_text` may raise, which is modelled by an
oracle `fails : Nat → Bool` saying which channels throw on send.  External
collaborators (base64, STT, the AI agent, MongoDB) are oracles in `Externals`.
Wall-clock timestamps and the uuid4 generator are supplied in `Env`.
-/

/-- Scalar JSON-like values appearing as dictionary fields. -/
inductive JVal where
  | null
  | bool (b : Bool)
  | num (n : Int)
  | str (s : String)
deriving DecidableEq, Repr

/-- A value slot of a message envelope: either a scalar, a nested dictionary
(of scalars), or a list of dictionaries (such as the participant list carried
by a `session_state` message). -/
inductive PVal where
  | j (v : JVal)
  | dict (fields : List (String × JVal))
  | dicts (xs : List (List (String × JVal)))
deriving DecidableEq, Repr

/-- Python truthiness of a scalar value (`if x:`). -/
def JVal.truthy : JVal → Bool
  | .null => false
  | .bool b => b
  | .num n => n != 0
  | .str s => s != ""

/-- Python truthiness of an envelope value. -/
def PVal.truthy : PVal → Bool
  | .j v => v.truthy
  | .dict fields => fields != []
  | .dicts xs => xs != []

/-- Python `str()` of a scalar, as used by f-string interpolation. -/
def JVal.render : JVal → String
  | .null => "None"
  | .bool true => "True"
  | .bool false => "False"
  | .num n => toString n
  | .str s => s

/-- Whether redis-py can encode a value as a command argument: it accepts
bytes, str, int and float, and raises `DataError` on anything else — in
particular on `None` and on booleans. -/
def JVal.redisEncodable : JVal → Bool
  | .num _ => true
  | .str _ => true
  | .null => false
  | .bool _ => false

/-- Python `str()` of an envelope value. -/
def PVal.render : PVal → String
  | .j v => v.render
  | .dict _ => "<dict>"
  | .dicts _ => "<list>"

/-- `d.get(k)`: value of the first (hence, for a genuine dict, only) binding
of `k`, if any. -/
def dictLookup {β : Type} (d : List (String × β)) (k : String) : Option β :=
  (d.find? (fun p => p.1 = k)).map Prod.snd

/-- `d[k] = v` with Python dict semantics: an existing key keeps its position
and gets the new value; a fresh key is appended at the end. -/
def dictInsert {β : Type} (k : String) (v : β) : List (String × β) → List (String × β)
  | [] => [(k, v)]
  | p :: rest => if p.1 = k then (k, v) :: rest else p :: dictInsert k v rest

/-- `d.pop(k, None)` / `del d[k]`: remove the binding of `k`, if present. -/
def dictErase {β : Type} (k : String) : List (String × β) → List (String × β)
  | [] => []
  | p :: rest => if p.1 = k then rest else p :: dictErase k rest

/-- Python set `add`. -/
def setAdd (x : String) (s : List String) : List String :=
  if x ∈ s then s else s ++ [x]

/-- Python set `discard` / redis `srem`. -/
def setDiscard (x : String) (s : List String) : List String :=
  s.filter (fun y => y ≠ x)

/-- An outbound message dictionary: `{"type": ..., "payload": ...}` with an
optional top-level `"timestamp"` field. -/
structure Msg where
  type : String
  payload : List (String × PVal)
  timestamp : Option String := none
deriving DecidableEq, Repr

/-- One `send_text` invocation recorded by the model: which user's channel
was invoked with which message, and whether the send succeeded (`delivered`)
or raised (the exception being swallowed by the caller's `try/except`). -/
structure Sent where
  target : String
  channel : Nat
  event : Msg
  delivered : Bool
deriving DecidableEq, Repr

/-- One `websocket.close` invocation recorded by the model. -/
structure Close where
  channel : Nat
  code : Nat
  reason : String
deriving DecidableEq, Repr

/-- The info dict built from the verified token
(`{"name": ..., "role": ..., "email": ...}`, each possibly `None`). -/
structure UserInfo where
  name : Option String := none
  role : Option String := none
  email : Option String := none
deriving DecidableEq, Repr

/-- `user_info.get(k, default)`. -/
def UserInfo.getName (i : UserInfo) (default : String) : String := i.name.getD default

/-- `user_info.get("role", default)`. -/
def UserInfo.getRole (i : UserInfo) (default : String) : String := i.role.getD default

/-- `user_info.get("name")` as a JSON value (`None` when absent). -/
def UserInfo.nameVal (i : UserInfo) : JVal :=
  match i.name with
  | some s => .str s
  | none => .null

/-- A MongoDB `interaction_logs` document (the fields the handler writes). -/
structure LogRec where
  session_id : String
  interaction_type : String
  actor_user : String
  actor_role : Option String
  content : Option JVal
deriving DecidableEq, Repr

/-- The shared mutable state: the `ConnectionManager`'s two dicts, the redis
keys touched by the handler (participant sets, presence hashes with their
TTL, typing sets), and the MongoDB interaction log. -/
structure SysState where
  active_connections : List (String × List (String × Nat))
  session_participants : List (String × List String)
  redis_participants : List (String × List String)
  redis_presence : List ((String × String) × (List (String × JVal) × Nat))
  redis_typing : List (String × List String)
  mongo_logs : List LogRec
deriving DecidableEq, Repr

/-- The empty initial state. -/
def SysState.empty : SysState := ⟨[], [], [], [], [], []⟩

/-- The AI agent's structured response
(`response`, `suggestions`, `tools_used`, `tts_audio_url`, `emotion_detected`). -/
structure AgentResp where
  response : JVal
  suggestions : PVal
  tools_used : PVal
  tts_audio_url : JVal
  emotion_detected : JVal
deriving DecidableEq, Repr

/-- Oracles for the external collaborators and for transport faults. -/
structure Externals where
  /-- which channels raise on `send_text` -/
  fails : Nat → Bool
  /-- whether a token verifies, and the claims it carries -/
  tokenOk : Bool := true
  tokenSub : String := ""
  tokenInfo : UserInfo := {}
  /-- `base64.b64decode`; the error case models the raised exception -/
  b64decode : String → Except String Nat
  /-- `stt_service.transcribe_bytes`, returning a result dict -/
  stt : Nat → Except String (List (String × JVal))
  /-- `agent.process_message (session, message, role, phase, context, tts)` -/
  agent : String → JVal → String → JVal → JVal → JVal → Except String AgentResp
  /-- whether a mongodb handle was passed to the handler -/
  mongodb : Bool := false
  /-- whether `interaction_logs.insert_one` raises -/
  mongoRaises : Bool := false

/-- A benign external world: no channel fails, externals succeed trivially. -/
def Externals.quiet : Externals where
  fails := fun _ => false
  b64decode := fun _ => .ok 0
  stt := fun _ => .ok []
  agent := fun _ _ _ _ _ _ => .ok ⟨.str "", .j .null, .j .null, .null, .null⟩

/-- Per-call environment: the server clock reading (`datetime.utcnow()`
rendered to a string) and the next `uuid4()`. -/
structure Env where
  now : String
  freshId : String
deriving DecidableEq, Repr

/-! ## ConnectionManager -/

/-- `websocket.send_text`: raises exactly on the channels the fault oracle
marks as failing. -/
def send_text (fails : Nat → Bool) (ch : Nat) : Except String Unit :=
  if fails ch then .error ("send failed on channel " ++ toString ch) else .ok ()

/-- One iteration of the broadcast loop body: skip the excluded user,
otherwise attempt the send inside `try/except` (a raise is caught, logged and
the loop continues with the next recipient). -/
def broadcastStep (fails : Nat → Bool) (message : Msg) (exclude_user : Option String)
    (acc : List Sent) (p : String × Nat) : List Sent :=
  if some p.1 ≠ exclude_user then
    match send_text fails p.2 with
    | .ok _ => acc ++ [⟨p.1, p.2, message, true⟩]
    | .error _ => acc ++ [⟨p.1, p.2, message, false⟩]
  else acc

/-- `ConnectionManager.broadcast_to_session`: iterate over the session's
connection dict and send to every user other than `exclude_user`, swallowing
per-recipient send failures.  Returns the recorded send attempts. -/
def broadcast_to_session (fails : Nat → Bool) (st : SysState) (session_id : String)
    (message : Msg) (exclude_user : Option String) : List Sent :=
  match dictLookup st.active_connections session_id with
  | none => []
  | some conns => conns.foldl (broadcastStep fails message exclude_user) []

/-- `ConnectionManager.send_to_user`: unicast to one user's channel if the
session and user are registered, swallowing a send failure; silently a no-op
otherwise. -/
def send_to_user (fails : Nat → Bool) (st : SysState) (session_id user_id : String)
    (message : Msg) : List Sent :=
  match dictLookup st.active_connections session_id with
  | none => []
  | some conns =>
    match dictLookup conns user_id with
    | none => []
    | some ch =>
      match send_text fails ch with
      | .ok _ => [⟨user_id, ch, message, true⟩]
      | .error _ => [⟨user_id, ch, message, false⟩]

/-- `ConnectionManager.get_session_users`. -/
def get_session_users (st : SysState) (session_id : String) : List String :=
  (dictLookup st.session_participants session_id).getD []

/-! ## RedisClient (presence / typing) -/

/-- `redis_client.add_participant` (`SADD`). -/
def add_participant (st : SysState) (session_id user_id : String) : SysState :=
  let cur := (dictLookup st.redis_participants session_id).getD []
  { st with redis_participants :=
      dictInsert session_id (setAdd user_id cur) st.redis_participants }

/-- `redis_client.remove_participant` (`SREM`). -/
def remove_participant (st : SysState) (session_id user_id : String) : SysState :=
  let cur := (dictLookup st.redis_participants session_id).getD []
  { st with redis_participants :=
      dictInsert session_id (setDiscard user_id cur) st.redis_participants }

/-- Merge `data` into dict `h` field by field, as `HSET key mapping=data`
and Python's `{**h, **data}` both do: each field of `data` is written
(overwriting that field); fields of `h` absent from `data` are kept. -/
def hsetMapping {β : Type} (h : List (String × β)) (data : List (String × β)) :
    List (String × β) :=
  data.foldl (fun acc p => dictInsert p.1 p.2 acc) h

/-- `redis_client.set_presence`: `HSET` of the given mapping on the per
(session, user) presence hash, then `EXPIRE key 300`.  redis-py encodes the
mapping client-side before sending the command and raises `DataError` when
any value is not encodable (e.g. `None` or a boolean); in that case nothing
at all is written. -/
def set_presence (st : SysState) (session_id user_id : String)
    (data : List (String × JVal)) : Except String SysState :=
  if data.all (fun p => p.2.redisEncodable) then
    let key := (session_id, user_id)
    let cur := ((st.redis_presence.find? (fun p => p.1 = key)).map
        (fun p => p.2.1)).getD []
    .ok { st with redis_presence :=
        (key, (hsetMapping cur data, 300)) ::
          st.redis_presence.filter (fun p => p.1 ≠ key) }
  else
    .error "DataError: Invalid input type, convert to a bytes, string, int or float first"

/-- `redis_client.get_presence` (`HGETALL`: the empty hash for a missing key). -/
def get_presence (st : SysState) (session_id user_id : String) :
    List (String × JVal) :=
  ((st.redis_presence.find? (fun p => p.1 = (session_id, user_id))).map
      (fun p => p.2.1)).getD []

/-- `redis_client.set_typing` (`SADD` then `EXPIRE`). -/
def set_typing (st : SysState) (session_id user_id : String) : SysState :=
  let cur := (dictLookup st.redis_typing session_id).getD []
  { st with redis_typing := dictInsert session_id (setAdd user_id cur) st.redis_typing }

/-- `redis_client.clear_typing` (`SREM`). -/
def clear_typing (st : SysState) (session_id user_id : String) : SysState :=
  let cur := (dictLookup st.redis_typing session_id).getD []
  { st with redis_typing :=
      dictInsert session_id (setDiscard user_id cur) st.redis_typing }

/-! ## ConnectionManager: connect / disconnect -/

/-- The result of `ConnectionManager.connect`: the new state, the messages
sent (the `user_joined` fan-out and the private `session_state` snapshot),
and the `websocket.close` calls made.  The source's `connect` body contains
no close call, so `closed` is always empty: a superseding connection simply
overwrites the registry entry. -/
structure ConnectOut where
  st : SysState
  sent : List Sent
  closed : List Close
deriving Repr

/-- `user_info.get("role")` as a JSON value (`None` when absent). -/
def UserInfo.roleVal (i : UserInfo) : JVal :=
  match i.role with
  | some s => .str s
  | none => .null

/-- `ConnectionManager.connect`: accept the channel, lazily create the
session's transient dicts, store the channel under (session, user)
(overwriting any prior channel for that identity), add the user to the
participant set and the redis presence structures, broadcast `user_joined`
to the others, and send the `session_state` snapshot to the new channel.
A raise from `set_presence` would propagate out of `connect` (the source
awaits it with no handler); its mapping here is all strings, so that path
is never taken. -/
def connect (ext : Externals) (env : Env) (st : SysState)
    (session_id user_id : String) (user_info : UserInfo) (channel : Nat) :
    Except String ConnectOut :=
  let st1 : SysState :=
    if (dictLookup st.active_connections session_id).isNone then
      { st with
          active_connections := dictInsert session_id [] st.active_connections,
          session_participants := dictInsert session_id [] st.session_participants }
    else st
  let conns := (dictLookup st1.active_connections session_id).getD []
  let ac2 := dictInsert session_id (dictInsert user_id channel conns) st1.active_connections
  let st2 := { st1 with active_connections := ac2 }
  let ps := (dictLookup st2.session_participants session_id).getD []
  let sp3 := dictInsert session_id (setAdd user_id ps) st2.session_participants
  let st3 := { st2 with session_participants := sp3 }
  let st4 := add_participant st3 session_id user_id
  match set_presence st4 session_id user_id
      [("status", .str "active"),
       ("name", .str (user_info.getName "")),
       ("role", .str (user_info.getRole "")),
       ("connected_at", .str env.now)] with
  | .error e => .error e
  | .ok st5 =>
    let joinedMsg : Msg :=
      { type := "user_joined",
        payload := [("user_id", .j (.str user_id)),
                    ("name", .j (.str (user_info.getName ""))),
                    ("role", .j (.str (user_info.getRole "")))],
        timestamp := some env.now }
    let sent1 := broadcast_to_session ext.fails st5 session_id joinedMsg (some user_id)
    let participants : List (List (String × JVal)) :=
      (get_session_users st5 session_id).filterMap (fun uid =>
        let presence := get_presence st5 session_id uid
        if presence ≠ [] then some (hsetMapping [("user_id", JVal.str uid)] presence)
        else none)
    let stateMsg : Msg :=
      { type := "session_state",
        payload := [("participants", .dicts participants),
                    ("your_id", .j (.str user_id))] }
    let sent2 := send_to_user ext.fails st5 session_id user_id stateMsg
    .ok ⟨st5, sent1 ++ sent2, []⟩

/-- `ConnectionManager.disconnect`: pop the user's channel and participant
entry; if the session's connection dict became empty, delete both per-session
structures; update redis; broadcast `user_left` (over the post-removal
state, hence to the remaining members only). -/
def disconnect (ext : Externals) (env : Env) (st : SysState)
    (session_id user_id : String) : SysState × List Sent :=
  let st1 :=
    match dictLookup st.active_connections session_id with
    | none => st
    | some conns =>
      let conns' := dictErase user_id conns
      let ps := (dictLookup st.session_participants session_id).getD []
      let stA := { st with
          active_connections := dictInsert session_id conns' st.active_connections,
          session_participants :=
            dictInsert session_id (setDiscard user_id ps) st.session_participants }
      if conns' = [] then
        { stA with
            active_connections := dictErase session_id stA.active_connections,
            session_participants := dictErase session_id stA.session_participants }
      else stA
  let st2 := remove_participant st1 session_id user_id
  let leftMsg : Msg :=
    { type := "user_left",
      payload := [("user_id", .j (.str user_id))],
      timestamp := some env.now }
  (st2, broadcast_to_session ext.fails st2 session_id leftMsg none)

/-! ## SessionWebSocketHandler -/

/-- Result of one handler invocation: either a normal return or a raised
exception.  Sends made and state mutations performed before the raise are
retained (Python exceptions do not roll anything back). -/
inductive HRes where
  | ok (st : SysState) (sent : List Sent)
  | exn (e : String) (st : SysState) (sent : List Sent)
deriving Repr

/-- Python attribute access `payload.get`: raises `AttributeError` when the
payload slot does not hold a dict. -/
def asDict : PVal → Except String (List (String × JVal))
  | .dict fields => .ok fields
  | _ => .error "AttributeError: object has no attribute get"

/-- `payload.get(k, default)` on a dict of scalars. -/
def pget (p : List (String × JVal)) (k : String) (default : JVal) : JVal :=
  (dictLookup p k).getD default

/-- `_handle_ping`: private `pong` with the server timestamp. -/
def handle_ping (ext : Externals) (env : Env) (st : SysState)
    (session_id user_id : String) (_info : UserInfo) (_payload : PVal) : HRes :=
  .ok st (send_to_user ext.fails st session_id user_id
    { type := "pong", payload := [("timestamp", .j (.str env.now))] })

/-- `_handle_presence_update`: `set_presence` with the tracked fields, then
broadcast `presence_update` (the inbound payload merged over `user_id`)
excluding the sender.  `payload.get("cursor")` / `payload.get("active_element")`
default to `None`, so a payload lacking those keys makes `set_presence`
raise `DataError`, which propagates before anything is broadcast. -/
def handle_presence_update (ext : Externals) (env : Env) (st : SysState)
    (session_id user_id : String) (_info : UserInfo) (payload : PVal) : HRes :=
  match asDict payload with
  | .error e => .exn e st []
  | .ok p =>
    match set_presence st session_id user_id
      [("status", pget p "status" (.str "active")),
       ("cursor", pget p "cursor" .null),
       ("active_element", pget p "active_element" .null),
       ("updated_at", .str env.now)] with
    | .error e => .exn e st []
    | .ok st1 =>
      let msg : Msg :=
        { type := "presence_update",
          payload := hsetMapping [("user_id", PVal.j (.str user_id))]
            (p.map (fun q => (q.1, PVal.j q.2))) }
      .ok st1 (broadcast_to_session ext.fails st1 session_id msg (some user_id))

/-- `_handle_typing_start`: `set_typing`, broadcast excluding the sender. -/
def handle_typing_start (ext : Externals) (_env : Env) (st : SysState)
    (session_id user_id : String) (info : UserInfo) (_payload : PVal) : HRes :=
  let st1 := set_typing st session_id user_id
  let msg : Msg :=
    { type := "typing_start",
      payload := [("user_id", .j (.str user_id)), ("name", .j info.nameVal)] }
  .ok st1 (broadcast_to_session ext.fails st1 session_id msg (some user_id))

/-- `_handle_typing_stop`: `clear_typing`, broadcast excluding the sender. -/
def handle_typing_stop (ext : Externals) (_env : Env) (st : SysState)
    (session_id user_id : String) (_info : UserInfo) (_payload : PVal) : HRes :=
  let st1 := clear_typing st session_id user_id
  let msg : Msg :=
    { type := "typing_stop", payload := [("user_id", .j (.str user_id))] }
  .ok st1 (broadcast_to_session ext.fails st1 session_id msg (some user_id))

/-- `_handle_chat_message`: build the chat event with a server-assigned
`message_id` (`uuid4`) and server timestamp, broadcast to the whole session
with no exclusion, then insert an interaction-log document when a mongodb
handle is present (a raise there happens after the broadcast). -/
def handle_chat_message (ext : Externals) (env : Env) (st : SysState)
    (session_id user_id : String) (info : UserInfo) (payload : PVal) : HRes :=
  match asDict payload with
  | .error e => .exn e st []
  | .ok p =>
    let message : Msg :=
      { type := "chat_message",
        payload := [("message_id", .j (.str env.freshId)),
                    ("user_id", .j (.str user_id)),
                    ("name", .j info.nameVal),
                    ("role", .j info.roleVal),
                    ("content", .j (pget p "content" (.str ""))),
                    ("timestamp", .j (.str env.now))] }
    let sent := broadcast_to_session ext.fails st session_id message none
    if ext.mongodb then
      if ext.mongoRaises then .exn "mongo insert_one failed" st sent
      else .ok { st with mongo_logs := st.mongo_logs ++
            [⟨session_id, "chat_message", user_id, info.role, dictLookup p "content"⟩] }
          sent
    else .ok st sent

/-- `_handle_ai_message`: no-op on a falsy message; otherwise broadcast
`ai_processing` to the whole session, call the agent, and broadcast the
structured `ai_response`; an agent raise propagates (after the
`ai_processing` broadcast). -/
def handle_ai_message (ext : Externals) (env : Env) (st : SysState)
    (session_id user_id : String) (info : UserInfo) (payload : PVal) : HRes :=
  match asDict payload with
  | .error e => .exn e st []
  | .ok p =>
    let message := pget p "message" (.str "")
    let request_tts := pget p "request_tts" (.bool true)
    let current_phase := pget p "current_phase" (.str "shared_framing")
    if !message.truthy then .ok st []
    else
      let processing : Msg :=
        { type := "ai_processing", payload := [("status", .j (.str "thinking"))] }
      let sent1 := broadcast_to_session ext.fails st session_id processing none
      match ext.agent session_id message (info.getRole "designer") current_phase
          (pget p "context" .null) request_tts with
      | .error e => .exn e st sent1
      | .ok resp =>
        let respMsg : Msg :=
          { type := "ai_response",
            payload := [("response", .j resp.response),
                        ("suggestions", resp.suggestions),
                        ("tools_used", resp.tools_used),
                        ("tts_audio_url", .j resp.tts_audio_url),
                        ("emotion", .j resp.emotion_detected),
                        ("in_reply_to", .j (.str user_id)),
                        ("timestamp", .j (.str env.now))] }
        .ok st (sent1 ++ broadcast_to_session ext.fails st session_id respMsg none)

/-- `_handle_voice_input`: decode the base64 audio, transcribe it, broadcast
the transcript, and, when `forward_to_ai` is truthy (the default), re-enter
`_handle_ai_message` with a synthetic payload carrying the transcript. -/
def handle_voice_input (ext : Externals) (env : Env) (st : SysState)
    (session_id user_id : String) (info : UserInfo) (payload : PVal) : HRes :=
  match asDict payload with
  | .error e => .exn e st []
  | .ok p =>
    let audio := pget p "audio" .null
    let request_tts := pget p "request_tts" (.bool true)
    if !audio.truthy then .ok st []
    else
      match audio with
      | .str s =>
        match ext.b64decode s with
        | .error e => .exn e st []
        | .ok audio_bytes =>
          match ext.stt audio_bytes with
          | .error e => .exn e st []
          | .ok result =>
            let transcript := pget result "transcript" (.str "")
            if !transcript.truthy then .ok st []
            else
              let tMsg : Msg :=
                { type := "voice_transcript",
                  payload := [("user_id", .j (.str user_id)),
                              ("name", .j info.nameVal),
                              ("transcript", .j transcript),
                              ("confidence", .j (pget result "confidence" (.num 0)))] }
              let sent1 := broadcast_to_session ext.fails st session_id tMsg none
              if (pget p "forward_to_ai" (.bool true)).truthy then
                match handle_ai_message ext env st session_id user_id info
                    (.dict [("message", transcript), ("request_tts", request_tts)]) with
                | .ok st2 sent2 => .ok st2 (sent1 ++ sent2)
                | .exn e st2 sent2 => .exn e st2 (sent1 ++ sent2)
              else .ok st sent1
      | _ => .exn "TypeError: argument should be a bytes-like object or ASCII string" st []

/-- `_handle_crdt_update`: forward the update verbatim, tagged with its
origin, to every member except the originating user. -/
def handle_crdt_update (ext : Externals) (_env : Env) (st : SysState)
    (session_id user_id : String) (_info : UserInfo) (payload : PVal) : HRes :=
  match asDict payload with
  | .error e => .exn e st []
  | .ok p =>
    let msg : Msg :=
      { type := "crdt_update",
        payload := [("artifact_id", .j (pget p "artifact_id" .null)),
                    ("update", .j (pget p "update" .null)),
                    ("origin", .j (.str user_id))] }
    .ok st (broadcast_to_session ext.fails st session_id msg (some user_id))

/-- `_handle_phase_advance`: broadcast `phase_changed` carrying the
client-supplied `new_phase` and `triggered_by` to the whole session.  The
source performs no database update and no phase validation here (its comment
reads "This would typically update the database.  For now, just broadcast
the phase change"). -/
def handle_phase_advance (ext : Externals) (env : Env) (st : SysState)
    (session_id user_id : String) (_info : UserInfo) (payload : PVal) : HRes :=
  match asDict payload with
  | .error e => .exn e st []
  | .ok p =>
    let msg : Msg :=
      { type := "phase_changed",
        payload := [("new_phase", .j (pget p "new_phase" .null)),
                    ("triggered_by", .j (.str user_id)),
                    ("timestamp", .j (.str env.now))] }
    .ok st (broadcast_to_session ext.fails st session_id msg none)

/-- `SessionWebSocketHandler.handle_message`: read the `type` tag (empty
string when absent) and the payload (empty dict when absent), then look the
tag up in the handlers dict.  `handlers.get(msg_type)` requires a hashable
key: a dict- or list-valued tag raises `TypeError: unhashable type` (which
the endpoint's catch-all then turns into a disconnect).  A hashable tag
dispatches to the registered handler, or sends a private "Unknown message
type" error to the sender when no handler matches. -/
def handle_message (ext : Externals) (env : Env) (st : SysState)
    (session_id user_id : String) (info : UserInfo)
    (data : List (String × PVal)) : HRes :=
  let msg_type : PVal := (dictLookup data "type").getD (.j (.str ""))
  let payload : PVal := (dictLookup data "payload").getD (.dict [])
  match msg_type with
  | .dict _ => .exn "TypeError: unhashable type: dict" st []
  | .dicts _ => .exn "TypeError: unhashable type: list" st []
  | .j v =>
    if v = .str "ping" then
      handle_ping ext env st session_id user_id info payload
    else if v = .str "presence_update" then
      handle_presence_update ext env st session_id user_id info payload
    else if v = .str "typing_start" then
      handle_typing_start ext env st session_id user_id info payload
    else if v = .str "typing_stop" then
      handle_typing_stop ext env st session_id user_id info payload
    else if v = .str "chat_message" then
      handle_chat_message ext env st session_id user_id info payload
    else if v = .str "voice_input" then
      handle_voice_input ext env st session_id user_id info payload
    else if v = .str "ai_message" then
      handle_ai_message ext env st session_id user_id info payload
    else if v = .str "crdt_update" then
      handle_crdt_update ext env st session_id user_id info payload
    else if v = .str "phase_advance" then
      handle_phase_advance ext env st session_id user_id info payload
    else
      .ok st (send_to_user ext.fails st session_id user_id
        { type := "error",
          payload := [("message",
            .j (.str ("Unknown message type: " ++ v.render)))] })

/-! ## websocket_endpoint -/

/-- One iteration of `websocket_endpoint`'s receive loop applied to an
inbound envelope: a normal handler return continues the loop; a raise is
caught by the endpoint's `except` clause, which logs it and calls
`manager.disconnect`, terminating the connection (the returned flag). -/
def websocket_endpoint_step (ext : Externals) (env : Env) (st : SysState)
    (session_id user_id : String) (info : UserInfo)
    (data : List (String × PVal)) : SysState × List Sent × Bool :=
  match handle_message ext env st session_id user_id info data with
  | .ok st1 sent => (st1, sent, false)
  | .exn _ st1 sent =>
    let d := disconnect ext env st1 session_id user_id
    (d.1, sent ++ d.2, true)

/-- The accept-or-reject decision of `websocket_endpoint`: a token that
fails verification closes the channel with code 4001 / "Invalid token"
before any session state is touched; a valid token proceeds to
`manager.connect`. -/
def websocket_endpoint_open (ext : Externals) (env : Env) (st : SysState)
    (session_id : String) (channel : Nat) : Except String ConnectOut :=
  if ext.tokenOk then
    connect ext env st session_id ext.tokenSub ext.tokenInfo channel
  else
    .ok ⟨st, [], [⟨channel, 4001, "Invalid token"⟩]⟩

/-! ## sessions.py: start_session / advance_phase -/

/-- `SessionPhase` (models/session.py): the fixed, ordered phase vocabulary. -/
inductive SessionPhase where
  | setup
  | shared_framing
  | perspective_exchange
  | meaning_negotiation
  | reflection_iteration
  | complete
deriving DecidableEq, Repr

/-- The `.value` string of a phase enum member. -/
def SessionPhase.value : SessionPhase → String
  | .setup => "setup"
  | .shared_framing => "shared_framing"
  | .perspective_exchange => "perspective_exchange"
  | .meaning_negotiation => "meaning_negotiation"
  | .reflection_iteration => "reflection_iteration"
  | .complete => "complete"

/-- The columns of `CoDesignSession` that the two endpoints read or write. -/
structure CoDesignSession where
  id : Nat
  current_phase : SessionPhase
  started_at : Option Nat := none
  completed_at : Option Nat := none
deriving DecidableEq, Repr

/-- A `PhaseTransition` row as written by the endpoints. -/
structure PhaseTransitionRec where
  session_id : Nat
  from_phase : SessionPhase
  to_phase : SessionPhase
  triggered_by : String
  transition_reason : String
  transitioned_at : Nat
deriving DecidableEq, Repr

/-- The database slice the endpoints touch: sessions and the append-only
phase-transition log. -/
structure DBState where
  sessions : List CoDesignSession
  transitions : List PhaseTransitionRec
deriving DecidableEq, Repr

/-- An `HTTPException` raised by an endpoint: raising before `commit` means
no state change is persisted, so the error branch carries no new state. -/
structure HTTPError where
  status_code : Nat
  detail : String
deriving DecidableEq, Repr

/-- `scalar_one_or_none` on `select(...).where(id == session_id)`. -/
def findSession (db : DBState) (session_id : Nat) : Option CoDesignSession :=
  db.sessions.find? (fun s => s.id = session_id)

/-- Mutating the selected session row in place. -/
def updateSession (db : DBState) (session_id : Nat)
    (f : CoDesignSession → CoDesignSession) : DBState :=
  { db with sessions := db.sessions.map (fun s => if s.id = session_id then f s else s) }

/-- The row update performed by `start_session`. -/
def startRow (now : Nat) (s : CoDesignSession) : CoDesignSession :=
  { s with current_phase := .shared_framing, started_at := some now }

/-- The row update performed by `advance_phase`: move to `to_phase`, and
stamp `completed_at` when the new phase is `complete`. -/
def advanceRow (now : Nat) (to_phase : SessionPhase) (s : CoDesignSession) : CoDesignSession :=
  let s1 := { s with current_phase := to_phase }
  if to_phase = .complete then { s1 with completed_at := some now } else s1

/-- `phase_order` exactly as listed in `advance_phase`. -/
def phase_order : List SessionPhase :=
  [.setup, .shared_framing, .perspective_exchange, .meaning_negotiation,
   .reflection_iteration, .complete]

/-- The response body of `start_session`. -/
structure StartResp where
  message : String
  current_phase : String
deriving DecidableEq, Repr

/-- `start_session`: 404 for a missing session; 400 "Session sudah dimulai"
(already started) unless the phase is `setup`; otherwise move to
`shared_framing`, set `started_at`, record one `PhaseTransition`
(reason "Session started"), and commit. -/
def start_session (db : DBState) (session_id : Nat) (current_user : String)
    (now : Nat) : Except HTTPError (DBState × StartResp) :=
  match findSession db session_id with
  | none => .error ⟨404, "Session tidak ditemukan"⟩
  | some session =>
    if session.current_phase ≠ .setup then
      .error ⟨400, "Session sudah dimulai"⟩
    else
      let db1 := updateSession db session_id (startRow now)
      let tx : PhaseTransitionRec :=
        ⟨session_id, .setup, .shared_framing, current_user, "Session started", now⟩
      let db2 := { db1 with transitions := db1.transitions ++ [tx] }
      .ok (db2, ⟨"Session dimulai", "shared_framing"⟩)

/-- The response body of `advance_phase`. -/
structure AdvanceResp where
  message : String
  from_phase : String
  current_phase : String
deriving DecidableEq, Repr

/-- `advance_phase`: 404 for a missing session; 400 "Session sudah selesai"
(already complete) when `phase_order.index(current)` is already the last
index; otherwise move to the immediate next phase of `phase_order`, stamp
`completed_at` on reaching `complete`, record one `PhaseTransition`
(reason "Manual advance"), and commit.  (The guard makes the lookup of
index + 1 in-bounds; `.getD` supplies a never-used fallback.) -/
def advance_phase (db : DBState) (session_id : Nat) (current_user : String)
    (now : Nat) : Except HTTPError (DBState × AdvanceResp) :=
  match findSession db session_id with
  | none => .error ⟨404, "Session tidak ditemukan"⟩
  | some session =>
    let current_index := phase_order.indexOf session.current_phase
    if current_index ≥ phase_order.length - 1 then
      .error ⟨400, "Session sudah selesai"⟩
    else
      let from_phase := session.current_phase
      let to_phase := phase_order.getD (current_index + 1) .complete
      let db1 := updateSession db session_id (advanceRow now to_phase)
      let tx : PhaseTransitionRec :=
        ⟨session_id, from_phase, to_phase, current_user, "Manual advance", now⟩
      let db2 := { db1 with transitions := db1.transitions ++ [tx] }
      .ok (db2, ⟨"Fase berubah ke " ++ to_phase.value, from_phase.value, to_phase.value⟩)

/-- `n` successive calls of `advance_phase` for the same session and caller,
propagating the database and stopping at the first raised `HTTPException`. -/
def advanceTimes (db : DBState) (session_id : Nat) (current_user : String)
    (now : Nat) : Nat → Except HTTPError DBState
  | 0 => .ok db
  | n + 1 =>
    match advanceTimes db session_id current_user now n with
    | .ok db' => (advance_phase db' session_id current_user now).map Prod.fst
    | .error e => .error e

/-- The phase-transition rows recorded for one session. -/
def sessionTransitions (db : DBState) (session_id : Nat) : List PhaseTransitionRec :=
  db.transitions.filter (fun tx => tx.session_id = session_id)

/-! ## Characterization lemmas -/

/-- The closed form of the broadcast loop: every connection of the session
other than the excluded user, in dict order, each stamped with whether its
own send succeeded. -/
def broadcastList (fails : Nat → Bool) (message : Msg) (exclude : Option String)
    (conns : List (String × Nat)) : List Sent :=
  (conns.filter (fun p => some p.1 ≠ exclude)).map
    (fun p => ⟨p.1, p.2, message, !fails p.2⟩)

theorem broadcastList_nil (fails : Nat → Bool) (message : Msg) (exclude : Option String) :
    broadcastList fails message exclude [] = [] := rfl

theorem broadcastList_cons (fails : Nat → Bool) (message : Msg) (exclude : Option String)
    (q : String × Nat) (t : List (String × Nat)) :
    broadcastList fails message exclude (q :: t) =
      (if some q.1 ≠ exclude then [⟨q.1, q.2, message, !fails q.2⟩] else []) ++
        broadcastList fails message exclude t := by
  by_cases h : some q.1 = exclude
  · simp [broadcastList, List.filter_cons, h]
  · simp [broadcastList, List.filter_cons, h]

theorem foldl_broadcastStep (fails : Nat → Bool) (message : Msg) (exclude : Option String)
    (l : List (String × Nat)) :
    ∀ acc : List Sent,
      l.foldl (broadcastStep fails message exclude) acc =
        acc ++ broadcastList fails message exclude l := by
  induction l with
  | nil => intro acc; simp [broadcastList]
  | cons q t ih =>
    intro acc
    rw [List.foldl_cons, ih, broadcastList_cons]
    by_cases h : some q.1 = exclude
    · simp [broadcastStep, h]
    · by_cases hf : fails q.2
      · simp [broadcastStep, h, send_text, hf]
      · simp [broadcastStep, h, send_text, hf]

/-- `broadcast_to_session` in closed form. -/
theorem broadcast_to_session_eq (fails : Nat → Bool) (st : SysState)
    (session_id : String) (message : Msg) (exclude : Option String)
    (conns : List (String × Nat))
    (hconns : dictLookup st.active_connections session_id = some conns) :
    broadcast_to_session fails st session_id message exclude =
      broadcastList fails message exclude conns := by
  unfold broadcast_to_session
  rw [hconns]
  simpa using foldl_broadcastStep fails message exclude conns []

/-- Every recorded send of a broadcast targets one of the session's
connection keys, with that key's channel. -/
theorem broadcastList_mem (fails : Nat → Bool) (message : Msg) (exclude : Option String)
    (conns : List (String × Nat)) (s : Sent)
    (hs : s ∈ broadcastList fails message exclude conns) :
    (s.target, s.channel) ∈ conns ∧ some s.target ≠ exclude ∧
      s.event = message ∧ s.delivered = !fails s.channel := by
  unfold broadcastList at hs
  obtain ⟨p, hp, rfl⟩ := List.mem_map.mp hs
  obtain ⟨hpmem, hpex⟩ := List.mem_filter.mp hp
  refine ⟨hpmem, ?_, rfl, rfl⟩
  simpa using hpex

/-- Under duplicate-free keys, the sends of a broadcast targeting one
non-excluded connection are exactly one send on that connection's channel. -/
theorem broadcastList_filter_target (fails : Nat → Bool) (message : Msg)
    (exclude : Option String) (conns : List (String × Nat))
    (hnodup : (conns.map Prod.fst).Nodup) (p : String × Nat)
    (hp : p ∈ conns) (hne : some p.1 ≠ exclude) :
    (broadcastList fails message exclude conns).filter (fun s => s.target = p.1) =
      [⟨p.1, p.2, message, !fails p.2⟩] := by
  induction conns with
  | nil => cases hp
  | cons q t ih =>
    have hhead : q.1 ∉ t.map Prod.fst := (List.nodup_cons.mp (by simpa using hnodup)).1
    have htnodup : (t.map Prod.fst).Nodup := (List.nodup_cons.mp (by simpa using hnodup)).2
    rw [broadcastList_cons, List.filter_append]
    rcases List.mem_cons.mp hp with rfl | hpt
    · have h2 : (broadcastList fails message exclude t).filter
          (fun s => s.target = p.1) = [] := by
        refine List.filter_eq_nil_iff.mpr ?_
        intro s hs
        have hkeys := (broadcastList_mem fails message exclude t s hs).1
        have hmem : s.target ∈ t.map Prod.fst := List.mem_map.mpr ⟨_, hkeys, rfl⟩
        simp only [decide_eq_true_eq]
        intro hcontra
        rw [hcontra] at hmem
        exact hhead hmem
      rw [h2, if_pos hne]
      simp
    · have hq1 : q.1 ≠ p.1 := by
        intro hcontra
        have hmem : p.1 ∈ t.map Prod.fst := List.mem_map.mpr ⟨_, hpt, rfl⟩
        rw [← hcontra] at hmem
        exact hhead hmem
      have htail := ih htnodup hpt
      rw [htail]
      by_cases hqex : some q.1 = exclude
      · simp [hqex]
      · rw [if_pos (by simpa using hqex)]
        simp [hq1]


theorem dictLookup_nil {β : Type} (k : String) :
    dictLookup ([] : List (String × β)) k = none := rfl

theorem dictLookup_cons {β : Type} (k : String) (p : String × β) (t : List (String × β)) :
    dictLookup (p :: t) k = if p.1 = k then some p.2 else dictLookup t k := by
  by_cases h : p.1 = k
  · simp [dictLookup, List.find?_cons_of_pos, h]
  · simp [dictLookup, List.find?_cons_of_neg, h]

theorem dictLookup_eq_none_of_not_mem {β : Type} (k : String) (d : List (String × β))
    (h : k ∉ d.map Prod.fst) : dictLookup d k = none := by
  induction d with
  | nil => rfl
  | cons p t ih =>
    rw [List.map_cons] at h
    have hp : p.1 ≠ k := fun hc => h (by rw [hc]; exact List.mem_cons_self _ _)
    have ht : k ∉ t.map Prod.fst := fun hc => h (List.mem_cons_of_mem _ hc)
    rw [dictLookup_cons, if_neg hp]
    exact ih ht

theorem dictLookup_insert_self {β : Type} (k : String) (v : β) (d : List (String × β)) :
    dictLookup (dictInsert k v d) k = some v := by
  induction d with
  | nil => simp [dictInsert, dictLookup_cons]
  | cons p t ih =>
    by_cases h : p.1 = k
    · simp [dictInsert, h, dictLookup_cons]
    · simp [dictInsert, h, dictLookup_cons, ih]

theorem dictLookup_insert_ne {β : Type} (k k' : String) (v : β) (d : List (String × β))
    (h : k' ≠ k) : dictLookup (dictInsert k v d) k' = dictLookup d k' := by
  induction d with
  | nil => simp [dictInsert, dictLookup_cons, Ne.symm h]
  | cons p t ih =>
    by_cases hp : p.1 = k
    · simp [dictInsert, hp, dictLookup_cons, Ne.symm h]
    · simp [dictInsert, hp, dictLookup_cons, ih]

theorem keys_dictInsert_mem {β : Type} (k : String) (v : β) (d : List (String × β))
    (h : k ∈ d.map Prod.fst) :
    (dictInsert k v d).map Prod.fst = d.map Prod.fst := by
  induction d with
  | nil => cases h
  | cons p t ih =>
    rw [List.map_cons] at h
    by_cases hp : p.1 = k
    · simp [dictInsert, hp]
    · have ht : k ∈ t.map Prod.fst := by
        rcases List.mem_cons.mp h with hc | hc
        · exact absurd hc.symm hp
        · exact hc
      simp [dictInsert, hp, ih ht]

theorem keys_dictInsert_not_mem {β : Type} (k : String) (v : β) (d : List (String × β))
    (h : k ∉ d.map Prod.fst) :
    (dictInsert k v d).map Prod.fst = d.map Prod.fst ++ [k] := by
  induction d with
  | nil => simp [dictInsert]
  | cons p t ih =>
    rw [List.map_cons] at h
    have hp : p.1 ≠ k := fun hc => h (by rw [hc]; exact List.mem_cons_self _ _)
    have ht : k ∉ t.map Prod.fst := fun hc => h (List.mem_cons_of_mem _ hc)
    simp [dictInsert, hp, ih ht]

theorem nodup_keys_dictInsert {β : Type} (k : String) (v : β) (d : List (String × β))
    (h : (d.map Prod.fst).Nodup) : ((dictInsert k v d).map Prod.fst).Nodup := by
  by_cases hm : k ∈ d.map Prod.fst
  · rw [keys_dictInsert_mem k v d hm]; exact h
  · rw [keys_dictInsert_not_mem k v d hm]
    refine List.Nodup.append h (List.nodup_singleton k) ?_
    intro a ha hb
    rw [List.mem_singleton] at hb
    subst hb
    exact hm ha

theorem countP_key_dictInsert {β : Type} (k : String) (v : β) (d : List (String × β))
    (hnodup : (d.map Prod.fst).Nodup) :
    (dictInsert k v d).countP (fun p => p.1 = k) = 1 := by
  induction d with
  | nil => simp [dictInsert, List.countP_cons]
  | cons p t ih =>
    have hhead : p.1 ∉ t.map Prod.fst := (List.nodup_cons.mp (by simpa using hnodup)).1
    have htnodup : (t.map Prod.fst).Nodup := (List.nodup_cons.mp (by simpa using hnodup)).2
    by_cases hp : p.1 = k
    · have hzero : t.countP (fun q => q.1 = k) = 0 := by
        refine List.countP_eq_zero.mpr ?_
        intro q hq
        simp only [decide_eq_true_eq]
        intro hc
        rw [← hp] at hc
        exact hhead (List.mem_map.mpr ⟨q, hq, hc⟩)
      simp [dictInsert, hp, List.countP_cons, hzero]
    · simp [dictInsert, hp, List.countP_cons, ih htnodup]

theorem dictErase_sublist_keys {β : Type} (k : String) (d : List (String × β)) :
    ((dictErase k d).map Prod.fst).Sublist (d.map Prod.fst) := by
  induction d with
  | nil => simp [dictErase]
  | cons p t ih =>
    by_cases hp : p.1 = k
    · simp only [dictErase, if_pos hp, List.map_cons]
      exact (List.Sublist.refl _).cons _
    · simp only [dictErase, if_neg hp, List.map_cons]
      exact ih.cons₂ _

theorem nodup_keys_dictErase {β : Type} (k : String) (d : List (String × β))
    (h : (d.map Prod.fst).Nodup) : ((dictErase k d).map Prod.fst).Nodup :=
  (dictErase_sublist_keys k d).nodup h

theorem dictLookup_erase_self {β : Type} (k : String) (d : List (String × β))
    (hnodup : (d.map Prod.fst).Nodup) : dictLookup (dictErase k d) k = none := by
  induction d with
  | nil => rfl
  | cons p t ih =>
    have hhead : p.1 ∉ t.map Prod.fst := (List.nodup_cons.mp (by simpa using hnodup)).1
    have htnodup : (t.map Prod.fst).Nodup := (List.nodup_cons.mp (by simpa using hnodup)).2
    by_cases hp : p.1 = k
    · rw [dictErase, if_pos hp]
      apply dictLookup_eq_none_of_not_mem
      rw [← hp]
      exact hhead
    · rw [dictErase, if_neg hp, dictLookup_cons, if_neg hp]
      exact ih htnodup

theorem dictLookup_erase_ne {β : Type} (k k' : String) (d : List (String × β))
    (h : k' ≠ k) : dictLookup (dictErase k d) k' = dictLookup d k' := by
  induction d with
  | nil => rfl
  | cons p t ih =>
    by_cases hp : p.1 = k
    · rw [dictErase, if_pos hp, dictLookup_cons, if_neg (by rw [hp]; exact Ne.symm h)]
    · rw [dictErase, if_neg hp, dictLookup_cons, dictLookup_cons, ih]

theorem mem_setAdd (x y : String) (s : List String) :
    y ∈ setAdd x s ↔ y = x ∨ y ∈ s := by
  unfold setAdd
  by_cases h : x ∈ s
  · simp only [if_pos h]
    constructor
    · exact Or.inr
    · rintro (rfl | hy)
      · exact h
      · exact hy
  · simp only [if_neg h, List.mem_append, List.mem_singleton]
    tauto

theorem nodup_setAdd (x : String) (s : List String) (h : s.Nodup) :
    (setAdd x s).Nodup := by
  unfold setAdd
  by_cases hm : x ∈ s
  · simpa [hm] using h
  · rw [if_neg hm]
    refine List.Nodup.append h (List.nodup_singleton x) ?_
    intro a ha hb
    rw [List.mem_singleton] at hb
    subst hb
    exact hm ha

theorem mem_setDiscard (x y : String) (s : List String) :
    y ∈ setDiscard x s ↔ y ∈ s ∧ y ≠ x := by
  simp [setDiscard]

/-! ## Shared concrete example data used by witnesses -/

/-- Three users attached to session "s" on channels 1, 2, 3. -/
def exampleConns : List (String × Nat) := [("a", 1), ("b", 2), ("u", 3)]

/-- The example system state for session "s". -/
def exampleState : SysState :=
  ⟨[("s", exampleConns)], [("s", ["a", "b", "u"])], [], [], [], []⟩

/-- An arbitrary event for broadcast examples. -/
def exampleMsg : Msg := ⟨"chat_message", [], none⟩

/-- A fault oracle making exactly channel 2 raise on send. -/
def failsOn2 : Nat → Bool := fun ch => ch = 2

/-! ## Claim theorems -/

/-- C1: `broadcast_to_session(session, event, exclude_user=U)` never invokes
delivery on U's channel; it invokes delivery exactly once on the channel of
every other currently-attached user; and a delivery failure for one
recipient neither prevents delivery to the remaining recipients (every
recipient whose own channel does not fail still receives the event, and
every recorded outcome depends only on that recipient's own channel) nor
raises to the caller (the function is total: the per-recipient `try/except`
swallows each send failure). -/
theorem c1_broadcast_excludes_and_delivers_exactly_once
    (fails : Nat → Bool) (st : SysState) (session_id U : String) (message : Msg)
    (conns : List (String × Nat))
    (hconns : dictLookup st.active_connections session_id = some conns)
    (hnodup : (conns.map Prod.fst).Nodup) :
    (∀ s ∈ broadcast_to_session fails st session_id message (some U), s.target ≠ U) ∧
    (∀ p ∈ conns, p.1 ≠ U →
      (broadcast_to_session fails st session_id message (some U)).filter
          (fun s => s.target = p.1) = [⟨p.1, p.2, message, !fails p.2⟩]) ∧
    (∀ p ∈ conns, p.1 ≠ U → fails p.2 = false →
      Sent.mk p.1 p.2 message true ∈
        broadcast_to_session fails st session_id message (some U)) ∧
    (∀ s ∈ broadcast_to_session fails st session_id message (some U),
      s.delivered = !fails s.channel) := by
  rw [broadcast_to_session_eq fails st session_id message (some U) conns hconns]
  refine ⟨?_, ?_, ?_, ?_⟩
  · intro s hs
    have h := (broadcastList_mem _ _ _ _ s hs).2.1
    simpa using h
  · intro p hp hne
    exact broadcastList_filter_target fails message (some U) conns hnodup p hp
      (by simpa using hne)
  · intro p hp hne hfail
    have h := broadcastList_filter_target fails message (some U) conns hnodup p hp
      (by simpa using hne)
    have hmem : Sent.mk p.1 p.2 message (!fails p.2) ∈
        (broadcastList fails message (some U) conns).filter
          (fun s => s.target = p.1) := by
      rw [h]; exact List.mem_singleton.mpr rfl
    have hmem2 := List.mem_of_mem_filter hmem
    simpa [hfail] using hmem2
  · intro s hs
    exact (broadcastList_mem _ _ _ _ s hs).2.2.2

/-- Witness for C1 at a concrete state: three attached users, channel 2
failing, excluding "u": the failure on "b"'s channel does not stop "a"'s
delivery, and "u" receives nothing. -/
theorem c1_witness :
    ((broadcast_to_session failsOn2 exampleState "s" exampleMsg (some "u")).filter
        (fun s => s.target = "a") = [⟨"a", 1, exampleMsg, true⟩]) ∧
    ((broadcast_to_session failsOn2 exampleState "s" exampleMsg (some "u")).filter
        (fun s => s.target = "b") = [⟨"b", 2, exampleMsg, false⟩]) ∧
    (∀ s ∈ broadcast_to_session failsOn2 exampleState "s" exampleMsg (some "u"),
      s.target ≠ "u") := by
  have h := c1_broadcast_excludes_and_delivers_exactly_once failsOn2 exampleState
    "s" "u" exampleMsg exampleConns rfl (by decide)
  refine ⟨?_, ?_, h.1⟩
  · have := h.2.1 ("a", 1) (by decide) (by decide)
    simpa [failsOn2] using this
  · have := h.2.1 ("b", 2) (by decide) (by decide)
    simpa [failsOn2] using this

/-- `send_to_user` in closed form when the target is attached. -/
theorem send_to_user_eq (fails : Nat → Bool) (st : SysState) (session_id user_id : String)
    (message : Msg) (conns : List (String × Nat)) (ch : Nat)
    (hconns : dictLookup st.active_connections session_id = some conns)
    (hch : dictLookup conns user_id = some ch) :
    send_to_user fails st session_id user_id message = [⟨user_id, ch, message, !fails ch⟩] := by
  unfold send_to_user
  by_cases hf : fails ch
  · simp [hconns, hch, send_text, hf]
  · simp [hconns, hch, send_text, hf]

/-- The nine type tags registered in `handle_message`'s handlers dict. -/
def registered_types : List String :=
  ["ping", "presence_update", "typing_start", "typing_stop", "chat_message",
   "voice_input", "ai_message", "crdt_update", "phase_advance"]

/-- Whether an inbound `type` slot matches a registered handler key: only a
string equal to one of the nine tags does. -/
def isRegistered : PVal → Bool
  | .j (.str s) => registered_types.contains s
  | _ => false

/-- C10 counterexample: dispatch is not total over arbitrary envelopes.
An envelope whose `type` slot is a dict is not answered with a private
error: `handlers.get(msg_type)` raises `TypeError: unhashable type`, and
the endpoint's catch-all then terminates the connection. -/
theorem c10_counterexample :
    handle_message Externals.quiet ⟨"t0", "id0"⟩ exampleState "s" "u" {}
        [("type", PVal.dict [])] =
      HRes.exn "TypeError: unhashable type: dict" exampleState [] ∧
    (websocket_endpoint_step Externals.quiet ⟨"t0", "id0"⟩ exampleState "s" "u" {}
        [("type", PVal.dict [])]).2.2 = true :=
  ⟨rfl, rfl⟩

/-- C10 amended: classification never raises for envelopes whose `type`
slot is hashable.  For any inbound data dict whose `type` slot (the empty
string when the key is absent) is a scalar matching none of the nine
registered tags, `handle_message` returns the state unchanged and makes
exactly one unicast send — the private "Unknown message type: <tag>" error
to the sender — with no broadcast and no state mutation.  An unhashable
`type` slot (a dict or a list) instead raises `TypeError` out of
`handlers.get`, with nothing sent and no state mutated, and the endpoint
catch-all then disconnects the sender. -/
theorem c10_hashable_unknown_tag_errs_privately_unhashable_raises
    (ext : Externals) (env : Env) (st : SysState) (session_id user_id : String)
    (info : UserInfo) (data : List (String × PVal))
    (conns : List (String × Nat)) (ch : Nat)
    (hconns : dictLookup st.active_connections session_id = some conns)
    (hch : dictLookup conns user_id = some ch)
    (hunk : isRegistered ((dictLookup data "type").getD (.j (.str ""))) = false) :
    (∀ v : JVal, (dictLookup data "type").getD (.j (.str "")) = .j v →
      handle_message ext env st session_id user_id info data =
        HRes.ok st [⟨user_id, ch,
          ⟨"error", [("message", .j (.str ("Unknown message type: " ++ v.render)))],
           none⟩, !ext.fails ch⟩]) ∧
    (∀ fields, (dictLookup data "type").getD (.j (.str "")) = .dict fields →
      handle_message ext env st session_id user_id info data =
        HRes.exn "TypeError: unhashable type: dict" st []) ∧
    (∀ xs, (dictLookup data "type").getD (.j (.str "")) = .dicts xs →
      handle_message ext env st session_id user_id info data =
        HRes.exn "TypeError: unhashable type: list" st []) := by
  refine ⟨?_, ?_, ?_⟩
  · intro v hv
    rw [hv] at hunk
    have hne : ∀ t : String, registered_types.contains t = true → ¬ v = .str t := by
      intro t hcont hc
      rw [hc] at hunk
      simp only [isRegistered] at hunk
      rw [hunk] at hcont
      cases hcont
    unfold handle_message
    simp only [hv]
    rw [if_neg (hne "ping" (by decide)), if_neg (hne "presence_update" (by decide)),
        if_neg (hne "typing_start" (by decide)), if_neg (hne "typing_stop" (by decide)),
        if_neg (hne "chat_message" (by decide)), if_neg (hne "voice_input" (by decide)),
        if_neg (hne "ai_message" (by decide)), if_neg (hne "crdt_update" (by decide)),
        if_neg (hne "phase_advance" (by decide))]
    rw [send_to_user_eq ext.fails st session_id user_id _ conns ch hconns hch]
  · intro fields hv
    unfold handle_message
    simp only [hv]
  · intro xs hv
    unfold handle_message
    simp only [hv]

/-- Witness for the amended C10: an envelope with no `type` key at all gets
the private empty-tag error to "u" and nothing else happens; an envelope
whose `type` slot is a list raises `TypeError` with nothing sent. -/
theorem c10_witness :
    (handle_message Externals.quiet ⟨"t0", "id0"⟩ exampleState "s" "u" {} [] =
      HRes.ok exampleState [⟨"u", 3,
        ⟨"error", [("message", .j (.str "Unknown message type: "))], none⟩, true⟩]) ∧
    (handle_message Externals.quiet ⟨"t0", "id0"⟩ exampleState "s" "u" {}
        [("type", PVal.dicts [])] =
      HRes.exn "TypeError: unhashable type: list" exampleState []) := by
  have h := c10_hashable_unknown_tag_errs_privately_unhashable_raises
    Externals.quiet ⟨"t0", "id0"⟩ exampleState "s" "u" {} [] exampleConns 3
    rfl (by decide) (by decide)
  have h2 := c10_hashable_unknown_tag_errs_privately_unhashable_raises
    Externals.quiet ⟨"t0", "id0"⟩ exampleState "s" "u" {} [("type", PVal.dicts [])]
    exampleConns 3 rfl (by decide) (by decide)
  constructor
  · have h1 := h.1 (.str "") rfl
    rw [show ("Unknown message type: " ++ JVal.render (JVal.str "") : String) =
          "Unknown message type: " from rfl] at h1
    exact h1
  · exact h2.2.2 [] rfl

/-! ## Lemmas about the phase endpoints -/

theorem advanceRow_id (now : Nat) (q : SessionPhase) (s : CoDesignSession) :
    (advanceRow now q s).id = s.id := by
  unfold advanceRow
  by_cases h : q = .complete <;> simp [h]

theorem startRow_id (now : Nat) (s : CoDesignSession) :
    (startRow now s).id = s.id := rfl

theorem find?_map_update (l : List CoDesignSession) (sid : Nat) (s : CoDesignSession)
    (f : CoDesignSession → CoDesignSession) (hf : ∀ x, (f x).id = x.id)
    (h : l.find? (fun x => x.id = sid) = some s) :
    (l.map (fun x => if x.id = sid then f x else x)).find? (fun x => x.id = sid) =
      some (f s) := by
  induction l with
  | nil => cases h
  | cons x t ih =>
    by_cases hx : x.id = sid
    · rw [List.find?_cons_of_pos _ (by simpa using hx)] at h
      injection h with h
      subst h
      rw [List.map_cons, if_pos hx, List.find?_cons_of_pos _ (by simp [hf, hx])]
    · rw [List.find?_cons_of_neg _ (by simpa using hx)] at h
      rw [List.map_cons, if_neg hx, List.find?_cons_of_neg _ (by simpa using hx)]
      exact ih h

theorem findSession_updateSession (db : DBState) (sid : Nat) (s : CoDesignSession)
    (f : CoDesignSession → CoDesignSession) (hf : ∀ x, (f x).id = x.id)
    (h : findSession db sid = some s) :
    findSession (updateSession db sid f) sid = some (f s) :=
  find?_map_update db.sessions sid s f hf h

/-- One successful `advance_phase` step, in closed form. -/
theorem advance_phase_ok_step (db : DBState) (sid : Nat) (u : String) (now : Nat)
    (s : CoDesignSession) (p : SessionPhase)
    (hfind : findSession db sid = some s) (hp : s.current_phase = p)
    (hlt : phase_order.indexOf p < phase_order.length - 1) :
    advance_phase db sid u now = .ok
      (⟨(updateSession db sid
            (advanceRow now (phase_order.getD (phase_order.indexOf p + 1) .complete))).sessions,
        db.transitions ++
          [⟨sid, p, phase_order.getD (phase_order.indexOf p + 1) .complete, u,
            "Manual advance", now⟩]⟩,
       ⟨"Fase berubah ke " ++ (phase_order.getD (phase_order.indexOf p + 1) .complete).value,
        p.value, (phase_order.getD (phase_order.indexOf p + 1) .complete).value⟩) := by
  unfold advance_phase
  rw [hfind]
  simp only [hp, if_neg (not_le.mpr hlt)]
  rfl

/-- `advance_phase` from `complete` raises 400 "Session sudah selesai" and
produces no new state (the exception precedes any mutation and any commit). -/
theorem advance_phase_complete_error (db : DBState) (sid : Nat) (u : String) (now : Nat)
    (s : CoDesignSession) (hfind : findSession db sid = some s)
    (hc : s.current_phase = .complete) :
    advance_phase db sid u now = .error ⟨400, "Session sudah selesai"⟩ := by
  unfold advance_phase
  rw [hfind]
  simp only [hc]
  rw [if_pos (by decide)]

/-- A successful `start_session`, in closed form. -/
theorem start_session_ok (db : DBState) (sid : Nat) (u : String) (now : Nat)
    (s : CoDesignSession) (hfind : findSession db sid = some s)
    (hsetup : s.current_phase = .setup) :
    start_session db sid u now = .ok
      (⟨(updateSession db sid (startRow now)).sessions,
        db.transitions ++ [⟨sid, .setup, .shared_framing, u, "Session started", now⟩]⟩,
       ⟨"Session dimulai", "shared_framing"⟩) := by
  unfold start_session
  rw [hfind]
  simp only [hsetup]
  rw [if_neg (by simp)]
  rfl

/-- `start_session` on a session not in `setup` raises 400
"Session sudah dimulai" and produces no new state. -/
theorem start_session_already_started (db : DBState) (sid : Nat) (u : String) (now : Nat)
    (s : CoDesignSession) (hfind : findSession db sid = some s)
    (hne : s.current_phase ≠ .setup) :
    start_session db sid u now = .error ⟨400, "Session sudah dimulai"⟩ := by
  unfold start_session
  rw [hfind]
  dsimp only
  rw [if_pos hne]

/-- C2: from `setup`, five successive `advance_phase` calls walk
`setup → shared_framing → perspective_exchange → meaning_negotiation →
reflection_iteration → complete`, each success appending exactly one
`PhaseTransition` row with the step's from/to phases; the sixth call (from
`complete`) raises 400 "Session sudah selesai" — and, raising before any
mutation or commit, produces no state at all, so the phase stays `complete`
and no transition row is appended. -/
theorem c2_advance_five_times_then_complete
    (db : DBState) (sid : Nat) (u : String) (now : Nat) (s : CoDesignSession)
    (hfind : findSession db sid = some s) (hsetup : s.current_phase = .setup) :
    ∃ db1 db2 db3 db4 db5 : DBState,
      (advance_phase db sid u now).map Prod.fst = .ok db1 ∧
      (advance_phase db1 sid u now).map Prod.fst = .ok db2 ∧
      (advance_phase db2 sid u now).map Prod.fst = .ok db3 ∧
      (advance_phase db3 sid u now).map Prod.fst = .ok db4 ∧
      (advance_phase db4 sid u now).map Prod.fst = .ok db5 ∧
      (findSession db1 sid).map CoDesignSession.current_phase = some .shared_framing ∧
      (findSession db2 sid).map CoDesignSession.current_phase = some .perspective_exchange ∧
      (findSession db3 sid).map CoDesignSession.current_phase = some .meaning_negotiation ∧
      (findSession db4 sid).map CoDesignSession.current_phase = some .reflection_iteration ∧
      (findSession db5 sid).map CoDesignSession.current_phase = some .complete ∧
      db1.transitions = db.transitions ++
        [⟨sid, .setup, .shared_framing, u, "Manual advance", now⟩] ∧
      db2.transitions = db1.transitions ++
        [⟨sid, .shared_framing, .perspective_exchange, u, "Manual advance", now⟩] ∧
      db3.transitions = db2.transitions ++
        [⟨sid, .perspective_exchange, .meaning_negotiation, u, "Manual advance", now⟩] ∧
      db4.transitions = db3.transitions ++
        [⟨sid, .meaning_negotiation, .reflection_iteration, u, "Manual advance", now⟩] ∧
      db5.transitions = db4.transitions ++
        [⟨sid, .reflection_iteration, .complete, u, "Manual advance", now⟩] ∧
      advance_phase db5 sid u now = .error ⟨400, "Session sudah selesai"⟩ := by
  have hto1 : phase_order.getD (phase_order.indexOf SessionPhase.setup + 1) .complete =
      .shared_framing := by decide
  have hto2 : phase_order.getD (phase_order.indexOf SessionPhase.shared_framing + 1)
      .complete = .perspective_exchange := by decide
  have hto3 : phase_order.getD (phase_order.indexOf SessionPhase.perspective_exchange + 1)
      .complete = .meaning_negotiation := by decide
  have hto4 : phase_order.getD (phase_order.indexOf SessionPhase.meaning_negotiation + 1)
      .complete = .reflection_iteration := by decide
  have hto5 : phase_order.getD (phase_order.indexOf SessionPhase.reflection_iteration + 1)
      .complete = .complete := by decide
  -- step 1
  have h1 := advance_phase_ok_step db sid u now s .setup hfind hsetup (by decide)
  rw [hto1] at h1
  set s1 : CoDesignSession := { s with current_phase := .shared_framing } with hs1
  have hrow1 : advanceRow now SessionPhase.shared_framing s = s1 := by
    simp [advanceRow, hs1]
  set db1 : DBState :=
    ⟨(updateSession db sid (advanceRow now .shared_framing)).sessions,
     db.transitions ++ [⟨sid, .setup, .shared_framing, u, "Manual advance", now⟩]⟩ with hdb1
  have hfind1 : findSession db1 sid = some s1 := by
    rw [← hrow1]
    exact findSession_updateSession db sid s _ (advanceRow_id now _) hfind
  -- step 2
  have h2 := advance_phase_ok_step db1 sid u now s1 .shared_framing hfind1 rfl (by decide)
  rw [hto2] at h2
  set s2 : CoDesignSession := { s1 with current_phase := .perspective_exchange } with hs2
  have hrow2 : advanceRow now SessionPhase.perspective_exchange s1 = s2 := by
    simp [advanceRow, hs2]
  set db2 : DBState :=
    ⟨(updateSession db1 sid (advanceRow now .perspective_exchange)).sessions,
     db1.transitions ++
       [⟨sid, .shared_framing, .perspective_exchange, u, "Manual advance", now⟩]⟩ with hdb2
  have hfind2 : findSession db2 sid = some s2 := by
    rw [← hrow2]
    exact findSession_updateSession db1 sid s1 _ (advanceRow_id now _) hfind1
  -- step 3
  have h3 := advance_phase_ok_step db2 sid u now s2 .perspective_exchange hfind2 rfl
    (by decide)
  rw [hto3] at h3
  set s3 : CoDesignSession := { s2 with current_phase := .meaning_negotiation } with hs3
  have hrow3 : advanceRow now SessionPhase.meaning_negotiation s2 = s3 := by
    simp [advanceRow, hs3]
  set db3 : DBState :=
    ⟨(updateSession db2 sid (advanceRow now .meaning_negotiation)).sessions,
     db2.transitions ++
       [⟨sid, .perspective_exchange, .meaning_negotiation, u, "Manual advance", now⟩]⟩
    with hdb3
  have hfind3 : findSession db3 sid = some s3 := by
    rw [← hrow3]
    exact findSession_updateSession db2 sid s2 _ (advanceRow_id now _) hfind2
  -- step 4
  have h4 := advance_phase_ok_step db3 sid u now s3 .meaning_negotiation hfind3 rfl
    (by decide)
  rw [hto4] at h4
  set s4 : CoDesignSession := { s3 with current_phase := .reflection_iteration } with hs4
  have hrow4 : advanceRow now SessionPhase.reflection_iteration s3 = s4 := by
    simp [advanceRow, hs4]
  set db4 : DBState :=
    ⟨(updateSession db3 sid (advanceRow now .reflection_iteration)).sessions,
     db3.transitions ++
       [⟨sid, .meaning_negotiation, .reflection_iteration, u, "Manual advance", now⟩]⟩
    with hdb4
  have hfind4 : findSession db4 sid = some s4 := by
    rw [← hrow4]
    exact findSession_updateSession db3 sid s3 _ (advanceRow_id now _) hfind3
  -- step 5
  have h5 := advance_phase_ok_step db4 sid u now s4 .reflection_iteration hfind4 rfl
    (by decide)
  rw [hto5] at h5
  set s5 : CoDesignSession :=
    { s4 with current_phase := .complete, completed_at := some now } with hs5
  have hrow5 : advanceRow now SessionPhase.complete s4 = s5 := by
    simp [advanceRow, hs5]
  set db5 : DBState :=
    ⟨(updateSession db4 sid (advanceRow now .complete)).sessions,
     db4.transitions ++
       [⟨sid, .reflection_iteration, .complete, u, "Manual advance", now⟩]⟩ with hdb5
  have hfind5 : findSession db5 sid = some s5 := by
    rw [← hrow5]
    exact findSession_updateSession db4 sid s4 _ (advanceRow_id now _) hfind4
  -- sixth call fails
  have h6 := advance_phase_complete_error db5 sid u now s5 hfind5 rfl
  refine ⟨db1, db2, db3, db4, db5, ?_, ?_, ?_, ?_, ?_, ?_, ?_, ?_, ?_, ?_,
    rfl, rfl, rfl, rfl, rfl, h6⟩
  · rw [h1]; rfl
  · rw [h2]; rfl
  · rw [h3]; rfl
  · rw [h4]; rfl
  · rw [h5]; rfl
  · rw [hfind1]; rfl
  · rw [hfind2]; rfl
  · rw [hfind3]; rfl
  · rw [hfind4]; rfl
  · rw [hfind5]; rfl

/-- A session row in `setup` with id 1. -/
def exampleSession : CoDesignSession := ⟨1, .setup, none, none⟩

/-- A one-session database with an empty transition log. -/
def exampleDB : DBState := ⟨[exampleSession], []⟩

/-- Witness for C2 at a concrete one-session database: five advances
produce five transition rows and phase `complete`; the sixth call raises
"Session sudah selesai". -/
theorem c2_witness :
    ∃ db5 : DBState,
      (findSession db5 1).map CoDesignSession.current_phase = some .complete ∧
      db5.transitions.length = 5 ∧
      advance_phase db5 1 "alice" 100 = .error ⟨400, "Session sudah selesai"⟩ := by
  obtain ⟨db1, db2, db3, db4, db5, ha1, ha2, ha3, ha4, ha5, hp1, hp2, hp3, hp4, hp5,
    ht1, ht2, ht3, ht4, ht5, herr⟩ :=
    c2_advance_five_times_then_complete exampleDB 1 "alice" 100 exampleSession rfl rfl
  refine ⟨db5, hp5, ?_, herr⟩
  rw [ht5, ht4, ht3, ht2, ht1]
  simp [exampleDB]

/-- C7: `start_session` succeeds only from `setup`: the first call moves the
session to `shared_framing`, sets `started_at`, and appends exactly one
`PhaseTransition` with to-phase `shared_framing`; a second call in a row
raises 400 "Session sudah dimulai" (producing no state), so after the two
calls exactly one such transition row exists. -/
theorem c7_start_twice_single_transition
    (db : DBState) (sid : Nat) (u : String) (now : Nat) (s : CoDesignSession)
    (hfind : findSession db sid = some s) (hsetup : s.current_phase = .setup)
    (hnone : (db.transitions.filter
      (fun tx => tx.session_id = sid ∧ tx.to_phase = .shared_framing)).length = 0) :
    ∃ db1 : DBState,
      (start_session db sid u now).map Prod.fst = .ok db1 ∧
      (findSession db1 sid).map CoDesignSession.current_phase = some .shared_framing ∧
      (findSession db1 sid).map CoDesignSession.started_at = some (some now) ∧
      db1.transitions = db.transitions ++
        [⟨sid, .setup, .shared_framing, u, "Session started", now⟩] ∧
      (db1.transitions.filter
        (fun tx => tx.session_id = sid ∧ tx.to_phase = .shared_framing)).length = 1 ∧
      start_session db1 sid u now = .error ⟨400, "Session sudah dimulai"⟩ := by
  have h1 := start_session_ok db sid u now s hfind hsetup
  set db1 : DBState :=
    ⟨(updateSession db sid (startRow now)).sessions,
     db.transitions ++ [⟨sid, .setup, .shared_framing, u, "Session started", now⟩]⟩
    with hdb1
  have hfind1 : findSession db1 sid = some (startRow now s) :=
    findSession_updateSession db sid s _ (startRow_id now) hfind
  have herr := start_session_already_started db1 sid u now (startRow now s) hfind1
    (by simp [startRow])
  refine ⟨db1, ?_, ?_, ?_, rfl, ?_, herr⟩
  · rw [h1]; rfl
  · rw [hfind1]; rfl
  · rw [hfind1]; rfl
  · have htr : db1.transitions = db.transitions ++
        [(⟨sid, .setup, .shared_framing, u, "Session started", now⟩ :
          PhaseTransitionRec)] := rfl
    rw [htr, List.filter_append, List.length_append, hnone]
    simp

/-- Witness for C7 at the concrete one-session database. -/
theorem c7_witness :
    ∃ db1 : DBState,
      (start_session exampleDB 1 "alice" 100).map Prod.fst = .ok db1 ∧
      (findSession db1 1).map CoDesignSession.current_phase = some .shared_framing ∧
      (findSession db1 1).map CoDesignSession.started_at = some (some 100) ∧
      db1.transitions = exampleDB.transitions ++
        [⟨1, .setup, .shared_framing, "alice", "Session started", 100⟩] ∧
      (db1.transitions.filter
        (fun tx => tx.session_id = 1 ∧ tx.to_phase = .shared_framing)).length = 1 ∧
      start_session db1 1 "alice" 100 = .error ⟨400, "Session sudah dimulai"⟩ :=
  c7_start_twice_single_transition exampleDB 1 "alice" 100 exampleSession rfl rfl
    (by decide)

/-! ## Presence store lemmas (C8) -/

theorem mem_keys_of_dictLookup {β : Type} (d : List (String × β)) (k : String) (v : β)
    (h : dictLookup d k = some v) : k ∈ d.map Prod.fst := by
  induction d with
  | nil => cases h
  | cons p t ih =>
    rw [dictLookup_cons] at h
    by_cases hp : p.1 = k
    · rw [List.map_cons]
      exact hp ▸ List.mem_cons_self _ _
    · rw [if_neg hp] at h
      exact List.mem_cons_of_mem _ (ih h)

/-- Field lookup after an `HSET`-style merge: a field of the mapping takes
its mapped value; any other field keeps its prior value. -/
theorem dictLookup_hsetMapping {β : Type} (h d : List (String × β)) (k : String)
    (hnodup : (d.map Prod.fst).Nodup) :
    dictLookup (hsetMapping h d) k =
      match dictLookup d k with
      | some v => some v
      | none => dictLookup h k := by
  induction d generalizing h with
  | nil => simp [hsetMapping, dictLookup_nil]
  | cons p t ih =>
    have hhead : p.1 ∉ t.map Prod.fst := (List.nodup_cons.mp (by simpa using hnodup)).1
    have htnodup : (t.map Prod.fst).Nodup := (List.nodup_cons.mp (by simpa using hnodup)).2
    have hstep : hsetMapping h (p :: t) = hsetMapping (dictInsert p.1 p.2 h) t := rfl
    rw [hstep, ih _ htnodup, dictLookup_cons]
    cases hfind : dictLookup t k with
    | some v =>
      have hk : k ∈ t.map Prod.fst := mem_keys_of_dictLookup t k v hfind
      have hp : p.1 ≠ k := fun hc => hhead (hc ▸ hk)
      rw [if_neg hp]
    | none =>
      by_cases hp : p.1 = k
      · rw [if_pos hp, hp, dictLookup_insert_self]
      · rw [if_neg hp, dictLookup_insert_ne _ _ _ _ (fun hc => hp hc.symm)]

/-- `set_presence` on an all-encodable mapping, in closed form: the stored
hash is the prior hash merged (`HSET`) with the written mapping, and the
TTL is refreshed. -/
theorem set_presence_eq_ok (st : SysState) (session_id user_id : String)
    (data : List (String × JVal))
    (henc : data.all (fun p => p.2.redisEncodable) = true) :
    set_presence st session_id user_id data =
      .ok { st with redis_presence :=
          ((session_id, user_id),
           (hsetMapping (get_presence st session_id user_id) data, 300)) ::
            st.redis_presence.filter (fun p => p.1 ≠ (session_id, user_id)) } := by
  unfold set_presence get_presence
  rw [if_pos henc]

/-- A mapping carrying a non-encodable value (such as the `None` that
`payload.get("cursor")` yields for a missing key) makes `set_presence`
raise `DataError`; nothing is written. -/
theorem set_presence_raises (st : SysState) (session_id user_id : String)
    (data : List (String × JVal))
    (henc : data.all (fun p => p.2.redisEncodable) = false) :
    set_presence st session_id user_id data =
      .error "DataError: Invalid input type, convert to a bytes, string, int or float first" := by
  unfold set_presence
  rw [if_neg (by simp [henc])]

/-- Reading back the presence hash right after a *successful*
`set_presence`: the stored hash is the prior hash merged (`HSET`) with the
written mapping. -/
theorem get_presence_of_set_ok (st st' : SysState) (session_id user_id : String)
    (data : List (String × JVal))
    (h : set_presence st session_id user_id data = .ok st') :
    get_presence st' session_id user_id =
      hsetMapping (get_presence st session_id user_id) data := by
  by_cases henc : data.all (fun p => p.2.redisEncodable) = true
  · rw [set_presence_eq_ok st session_id user_id data henc] at h
    injection h with h
    subst h
    unfold get_presence
    simp [List.find?_cons_of_pos]
  · rw [set_presence_raises st session_id user_id data
      (Bool.eq_false_iff.mpr henc)] at h
    cases h

/-- The all-strings mapping `connect` writes is always accepted by redis:
`set_presence` on it succeeds unconditionally, in closed form. -/
theorem set_presence_strings (st : SysState) (session_id user_id a b c d : String) :
    set_presence st session_id user_id
      [("status", .str a), ("name", .str b), ("role", .str c),
       ("connected_at", .str d)] =
      .ok { st with redis_presence :=
          ((session_id, user_id),
           (hsetMapping (get_presence st session_id user_id)
              [("status", .str a), ("name", .str b), ("role", .str c),
               ("connected_at", .str d)], 300)) ::
            st.redis_presence.filter (fun p => p.1 ≠ (session_id, user_id)) } :=
  set_presence_eq_ok st session_id user_id _ rfl

/-- The presence mapping written by `ConnectionManager.connect`. -/
def connectPresenceFields (user_info : UserInfo) (now : String) :
    List (String × JVal) :=
  [("status", .str "active"),
   ("name", .str (user_info.getName "")),
   ("role", .str (user_info.getRole "")),
   ("connected_at", .str now)]

/-- The presence mapping written by `_handle_presence_update`. -/
def presenceUpdateFields (p : List (String × JVal)) (now : String) :
    List (String × JVal) :=
  [("status", pget p "status" (.str "active")),
   ("cursor", pget p "cursor" .null),
   ("active_element", pget p "active_element" .null),
   ("updated_at", .str now)]

/-- The connect-time presence mapping of the counterexample (all strings,
accepted by redis). -/
def c8First : List (String × JVal) :=
  connectPresenceFields ⟨some "Alice", some "designer", none⟩ "t0"

/-- The later presence-update mapping of the counterexample: its payload
carries encodable `cursor` and `active_element`, so redis accepts the
mapping (a payload lacking them would make `set_presence` raise on the
`None` defaults instead). -/
def c8Second : List (String × JVal) :=
  presenceUpdateFields
    [("status", .str "idle"), ("cursor", .str "3"), ("active_element", .str "el3")]
    "t1"

/-- The stored state after the first upsert. -/
def c8AfterFirst : SysState :=
  ⟨[], [], [], [(("s", "u"), (c8First, 300))], [], []⟩

/-- The stored state after the second upsert: the second mapping merged
over the first. -/
def c8AfterSecond : SysState :=
  ⟨[], [], [],
   [(("s", "u"),
     ([("status", .str "idle"), ("name", .str "Alice"), ("role", .str "designer"),
       ("connected_at", .str "t0"), ("cursor", .str "3"),
       ("active_element", .str "el3"), ("updated_at", .str "t1")], 300))], [], []⟩

/-- C8 counterexample: two *successful* presence upserts the code performs
for the same user — the connect-time upsert, then a presence-update upsert
with encodable cursor/active_element.  Both `HSET`s succeed, and the
`"name"` field written by the first upsert, though not included in the
second, survives in the stored record: the later upsert does not replace
the earlier field-set. -/
theorem c8_counterexample :
    set_presence SysState.empty "s" "u" c8First = .ok c8AfterFirst ∧
    set_presence c8AfterFirst "s" "u" c8Second = .ok c8AfterSecond ∧
    ("name", JVal.str "Alice") ∈ get_presence c8AfterSecond "s" "u" ∧
    "name" ∉ c8Second.map Prod.fst := by
  refine ⟨rfl, rfl, by decide, by decide⟩

/-- C8 amended: `set_presence` merges, it does not replace.  For two
successive upserts by the same user that redis accepts (all mapping values
encodable), a field included in the later upsert takes the later value,
while a field absent from the later upsert keeps whatever the state after
the first upsert held for it — the field-set is merged (`HSET`) and the TTL
refreshed, never replaced as a set.  A mapping carrying a non-encodable
value (such as the `None` defaults for a missing cursor/active_element)
instead raises `DataError` and writes nothing. -/
theorem c8_presence_upsert_merges_per_field
    (st st1 st2 : SysState) (session_id user_id : String)
    (d1 d2 : List (String × JVal)) (k : String)
    (hok1 : set_presence st session_id user_id d1 = .ok st1)
    (hok2 : set_presence st1 session_id user_id d2 = .ok st2)
    (hnodup : (d2.map Prod.fst).Nodup) :
    (dictLookup (get_presence st2 session_id user_id) k =
      match dictLookup d2 k with
      | some v => some v
      | none => dictLookup (get_presence st1 session_id user_id) k) ∧
    (∀ d : List (String × JVal), d.all (fun p => p.2.redisEncodable) = false →
      set_presence st1 session_id user_id d =
        .error "DataError: Invalid input type, convert to a bytes, string, int or float first") := by
  constructor
  · rw [get_presence_of_set_ok st1 st2 session_id user_id d2 hok2,
        dictLookup_hsetMapping _ _ _ hnodup]
    cases dictLookup d2 k <;> rfl
  · intro d hd
    exact set_presence_raises st1 session_id user_id d hd

/-- Witness for the amended C8: at the concrete pair of upserts, the
surviving `"name"` field carries the connect-time value, `"status"` carries
the later value, and a `None`-carrying mapping raises `DataError`. -/
theorem c8_witness :
    dictLookup (get_presence c8AfterSecond "s" "u") "name" =
      some (.str "Alice") ∧
    dictLookup (get_presence c8AfterSecond "s" "u") "status" =
      some (.str "idle") ∧
    set_presence c8AfterFirst "s" "u" [("cursor", JVal.null)] =
      .error "DataError: Invalid input type, convert to a bytes, string, int or float first" := by
  have h := c8_presence_upsert_merges_per_field SysState.empty c8AfterFirst
    c8AfterSecond "s" "u" c8First c8Second "name" rfl rfl (by decide)
  have h2 := c8_presence_upsert_merges_per_field SysState.empty c8AfterFirst
    c8AfterSecond "s" "u" c8First c8Second "status" rfl rfl (by decide)
  refine ⟨?_, ?_, h.2 [("cursor", JVal.null)] (by decide)⟩
  · rw [h.1]
    decide
  · rw [h2.1]
    decide

/-! ## Connect lemmas (C3) -/

/-- What `connect` does when the session already has a connection dict: it
returns successfully (its presence mapping is all strings, so `set_presence`
cannot raise), the (session, user) slot is overwritten with the new channel,
and no `websocket.close` call is made. -/
theorem connect_registry (ext : Externals) (env : Env) (st : SysState)
    (session_id user_id : String) (info : UserInfo) (ch : Nat)
    (conns : List (String × Nat))
    (hconns : dictLookup st.active_connections session_id = some conns) :
    ∃ out : ConnectOut, connect ext env st session_id user_id info ch = .ok out ∧
      out.st.active_connections =
        dictInsert session_id (dictInsert user_id ch conns) st.active_connections ∧
      out.closed = [] := by
  simp only [connect, set_presence_strings]
  refine ⟨_, rfl, ?_, rfl⟩
  simp [hconns, add_participant]

/-- The double attach of the C3 counterexample: "u" attaches on channel 1,
then again on channel 2, in a fresh state. -/
def c3SecondAttach : Except String ConnectOut :=
  (connect Externals.quiet ⟨"t0", "id0"⟩ SysState.empty "s" "u" {} 1).bind
    (fun out1 => connect Externals.quiet ⟨"t1", "id1"⟩ out1.st "s" "u" {} 2)

/-- C3 counterexample: attach channel 1 for ("s","u"), then attach channel 2
for the same identity.  The second attach succeeds and issues no `close` at
all — in particular no close with a "superseded" reason — contradicting the
claim that the prior channel is closed with a "superseded" reason. -/
theorem c3_counterexample :
    c3SecondAttach.map ConnectOut.closed = .ok [] ∧
    ¬ ∃ out : ConnectOut, c3SecondAttach = .ok out ∧
        ∃ c ∈ out.closed, c.reason = "superseded" := by
  constructor
  · rfl
  · rintro ⟨out, hout, c, hmem, _⟩
    have h0 : c3SecondAttach.map ConnectOut.closed = .ok [] := rfl
    rw [hout] at h0
    simp only [Except.map] at h0
    injection h0 with h0
    rw [h0] at hmem
    cases hmem

/-- C3 amended: attaching a second channel for an identity that already has
one simply overwrites the registry entry — the prior channel is not closed
(no close call is made at all, "superseded" or otherwise) — and afterwards
the registry holds exactly one entry for that identity, bound to the new
channel. -/
theorem c3_second_attach_overwrites_no_close
    (ext : Externals) (env : Env) (st : SysState) (session_id user_id : String)
    (info : UserInfo) (ch1 ch2 : Nat) (conns : List (String × Nat))
    (hconns : dictLookup st.active_connections session_id = some conns)
    (hnodup : (conns.map Prod.fst).Nodup)
    (hprev : dictLookup conns user_id = some ch1) :
    ∃ out : ConnectOut, connect ext env st session_id user_id info ch2 = .ok out ∧
      out.closed = [] ∧
      dictLookup ((dictLookup out.st.active_connections session_id).getD [])
        user_id = some ch2 ∧
      ((dictLookup out.st.active_connections session_id).getD []).countP
        (fun p => p.1 = user_id) = 1 := by
  obtain ⟨out, hok, hreg, hclosed⟩ :=
    connect_registry ext env st session_id user_id info ch2 conns hconns
  refine ⟨out, hok, hclosed, ?_, ?_⟩
  · rw [hreg, dictLookup_insert_self]
    simp [dictLookup_insert_self]
  · rw [hreg, dictLookup_insert_self]
    simpa using countP_key_dictInsert user_id ch2 conns hnodup

/-- Witness for the amended C3 at a concrete state: "u" already attached on
channel 3 in `exampleState`; re-attaching on channel 9 overwrites. -/
theorem c3_witness :
    ∃ out : ConnectOut,
      connect Externals.quiet ⟨"t1", "id1"⟩ exampleState "s" "u" {} 9 = .ok out ∧
      out.closed = [] ∧
      dictLookup ((dictLookup out.st.active_connections "s").getD []) "u" =
        some 9 ∧
      ((dictLookup out.st.active_connections "s").getD []).countP
        (fun p => p.1 = "u") = 1 :=
  c3_second_attach_overwrites_no_close Externals.quiet ⟨"t1", "id1"⟩ exampleState
    "s" "u" {} 3 9 exampleConns rfl (by decide) (by decide)

/-! ## Chat / CRDT delivery (C5) -/

theorem broadcastList_none (fails : Nat → Bool) (message : Msg)
    (conns : List (String × Nat)) :
    broadcastList fails message none conns =
      conns.map (fun pc => ⟨pc.1, pc.2, message, !fails pc.2⟩) := by
  unfold broadcastList
  rw [List.filter_eq_self.mpr]
  intro a _
  simp

theorem mem_of_dictLookup {β : Type} (d : List (String × β)) (k : String) (v : β)
    (h : dictLookup d k = some v) : (k, v) ∈ d := by
  unfold dictLookup at h
  obtain ⟨pair, hfind⟩ := Option.map_eq_some.mp h
  have hpred := List.find?_some hfind.1
  have hmem := List.mem_of_find?_eq_some hfind.1
  have hk : pair.1 = k := by simpa using hpred
  have hv : pair.2 = v := hfind.2
  have : pair = (k, v) := Prod.ext hk hv
  rw [← this]
  exact hmem

/-- The chat event `_handle_chat_message` builds: server-assigned
`message_id` (the fresh uuid4) and server timestamp, never taken from the
inbound payload. -/
def chatEvent (env : Env) (user_id : String) (info : UserInfo)
    (p : List (String × JVal)) : Msg :=
  ⟨"chat_message",
   [("message_id", .j (.str env.freshId)),
    ("user_id", .j (.str user_id)),
    ("name", .j info.nameVal),
    ("role", .j info.roleVal),
    ("content", .j (pget p "content" (.str ""))),
    ("timestamp", .j (.str env.now))], none⟩

/-- The event `_handle_crdt_update` forwards, tagged with its origin. -/
def crdtEvent (user_id : String) (q : List (String × JVal)) : Msg :=
  ⟨"crdt_update",
   [("artifact_id", .j (pget q "artifact_id" .null)),
    ("update", .j (pget q "update" .null)),
    ("origin", .j (.str user_id))], none⟩

/-- C5: a `chat_message` is broadcast to every attached member *including*
its own sender, carrying the server-assigned `message_id` (`uuid4`) and the
server timestamp; a `crdt_update` is broadcast to every attached member
*except* its originating user, exactly once each, and is never echoed to
its origin. -/
theorem c5_chat_includes_sender_crdt_excludes_origin
    (ext : Externals) (env : Env) (st : SysState) (session_id user_id : String)
    (info : UserInfo) (p q : List (String × JVal))
    (conns : List (String × Nat)) (chu : Nat)
    (hconns : dictLookup st.active_connections session_id = some conns)
    (hnodup : (conns.map Prod.fst).Nodup)
    (hu : dictLookup conns user_id = some chu)
    (hmongo : ext.mongodb = false) :
    (handle_chat_message ext env st session_id user_id info (.dict p) =
      .ok st (conns.map (fun pc =>
        ⟨pc.1, pc.2, chatEvent env user_id info p, !ext.fails pc.2⟩))) ∧
    (Sent.mk user_id chu (chatEvent env user_id info p) (!ext.fails chu) ∈
      conns.map (fun pc =>
        ⟨pc.1, pc.2, chatEvent env user_id info p, !ext.fails pc.2⟩)) ∧
    (handle_crdt_update ext env st session_id user_id info (.dict q) =
      .ok st (broadcastList ext.fails (crdtEvent user_id q) (some user_id) conns)) ∧
    (∀ s ∈ broadcastList ext.fails (crdtEvent user_id q) (some user_id) conns,
      s.target ≠ user_id) ∧
    (∀ pc ∈ conns, pc.1 ≠ user_id →
      (broadcastList ext.fails (crdtEvent user_id q) (some user_id) conns).filter
          (fun s => s.target = pc.1) =
        [⟨pc.1, pc.2, crdtEvent user_id q, !ext.fails pc.2⟩]) := by
  refine ⟨?_, ?_, ?_, ?_, ?_⟩
  · simp only [handle_chat_message, asDict]
    rw [broadcast_to_session_eq ext.fails st session_id _ none conns hconns,
        broadcastList_none]
    simp [hmongo, chatEvent]
  · exact List.mem_map.mpr ⟨(user_id, chu), mem_of_dictLookup conns user_id chu hu, rfl⟩
  · simp only [handle_crdt_update, asDict]
    rw [broadcast_to_session_eq ext.fails st session_id _ (some user_id) conns hconns]
    simp [crdtEvent]
  · intro s hs
    have h := (broadcastList_mem _ _ _ _ s hs).2.1
    simpa using h
  · intro pc hpc hne
    exact broadcastList_filter_target ext.fails (crdtEvent user_id q) (some user_id)
      conns hnodup pc hpc (by simpa using hne)

/-- Witness for C5 at the concrete example state: sender "u" is among the
three chat recipients and gets the server-assigned id "id0" and timestamp
"t0"; the crdt update reaches "a" and "b" once each and never "u". -/
theorem c5_witness :
    (handle_chat_message Externals.quiet ⟨"t0", "id0"⟩ exampleState "s" "u" {}
        (.dict [("content", .str "hi")]) =
      .ok exampleState
        [⟨"a", 1, chatEvent ⟨"t0", "id0"⟩ "u" {} [("content", .str "hi")], true⟩,
         ⟨"b", 2, chatEvent ⟨"t0", "id0"⟩ "u" {} [("content", .str "hi")], true⟩,
         ⟨"u", 3, chatEvent ⟨"t0", "id0"⟩ "u" {} [("content", .str "hi")], true⟩]) ∧
    (∀ s ∈ broadcastList Externals.quiet.fails (crdtEvent "u" [("artifact_id", .str "a1")])
        (some "u") exampleConns, s.target ≠ "u") := by
  have h := c5_chat_includes_sender_crdt_excludes_origin Externals.quiet ⟨"t0", "id0"⟩
    exampleState "s" "u" {} [("content", .str "hi")] [("artifact_id", .str "a1")]
    exampleConns 3 rfl (by decide) (by decide) rfl
  refine ⟨?_, h.2.2.2.1⟩
  have h1 := h.1
  rw [h1]
  rfl

/-! ## phase_advance over WebSocket (C6) -/

/-- The event `_handle_phase_advance` actually broadcasts: the
client-supplied `new_phase` (unvalidated), `triggered_by`, and a timestamp —
with no `from`/`to` fields. -/
def phaseChangedEvent (env : Env) (user_id : String) (p : List (String × JVal)) : Msg :=
  ⟨"phase_changed",
   [("new_phase", .j (pget p "new_phase" .null)),
    ("triggered_by", .j (.str user_id)),
    ("timestamp", .j (.str env.now))], none⟩

/-- C6 (what the code does): `_handle_phase_advance` is a stub — its own
comment reads "This would typically update the database.  For now, just
broadcast the phase change".  It consults no phase state machine (it has no
access to the database at all), never fails and never returns a private
error, and unconditionally broadcasts `phase_changed` to *every* attached
member (the sender included) carrying the client-supplied `new_phase`; the
payload has no `from` and no `to` field. -/
theorem c6_phase_advance_stub_behavior
    (ext : Externals) (env : Env) (st : SysState) (session_id user_id : String)
    (info : UserInfo) (p : List (String × JVal)) (conns : List (String × Nat))
    (hconns : dictLookup st.active_connections session_id = some conns) :
    handle_phase_advance ext env st session_id user_id info (.dict p) =
      .ok st (conns.map (fun pc =>
        ⟨pc.1, pc.2, phaseChangedEvent env user_id p, !ext.fails pc.2⟩)) ∧
    dictLookup (phaseChangedEvent env user_id p).payload "from" = none ∧
    dictLookup (phaseChangedEvent env user_id p).payload "to" = none ∧
    dictLookup (phaseChangedEvent env user_id p).payload "new_phase" =
      some (.j (pget p "new_phase" .null)) := by
  refine ⟨?_, by simp [phaseChangedEvent, dictLookup_cons, dictLookup_nil],
    by simp [phaseChangedEvent, dictLookup_cons, dictLookup_nil], ?_⟩
  · simp only [handle_phase_advance, asDict]
    rw [broadcast_to_session_eq ext.fails st session_id _ none conns hconns,
        broadcastList_none]
    simp [phaseChangedEvent]
  · simp [phaseChangedEvent, dictLookup_cons]

/-- Witness for C6: in a session whose database row would be in
`shared_framing`, a `phase_advance` carrying `new_phase = "zzz"` is
broadcast verbatim to all three members, the sender included — no
validation, no from/to, no error. -/
theorem c6_witness :
    handle_phase_advance Externals.quiet ⟨"t0", "id0"⟩ exampleState "s" "u" {}
        (.dict [("new_phase", .str "zzz")]) =
      .ok exampleState
        [⟨"a", 1, phaseChangedEvent ⟨"t0", "id0"⟩ "u" [("new_phase", .str "zzz")], true⟩,
         ⟨"b", 2, phaseChangedEvent ⟨"t0", "id0"⟩ "u" [("new_phase", .str "zzz")], true⟩,
         ⟨"u", 3, phaseChangedEvent ⟨"t0", "id0"⟩ "u" [("new_phase", .str "zzz")], true⟩] := by
  have h := c6_phase_advance_stub_behavior Externals.quiet ⟨"t0", "id0"⟩ exampleState
    "s" "u" {} [("new_phase", .str "zzz")] exampleConns rfl
  rw [h.1]
  rfl

/-! ## Disconnect lemmas (C9) -/

theorem not_mem_keys_of_dictLookup_none {β : Type} (d : List (String × β)) (k : String)
    (h : dictLookup d k = none) : k ∉ d.map Prod.fst := by
  induction d with
  | nil => simp
  | cons p t ih =>
    rw [dictLookup_cons] at h
    by_cases hp : p.1 = k
    · rw [if_pos hp] at h
      cases h
    · rw [if_neg hp] at h
      rw [List.map_cons]
      intro hc
      rcases List.mem_cons.mp hc with hc | hc
      · exact hp hc.symm
      · exact ih h hc

/-- The `user_left` event `disconnect` broadcasts. -/
def userLeftMsg (env : Env) (user_id : String) : Msg :=
  ⟨"user_left", [("user_id", .j (.str user_id))], some env.now⟩

/-- `connect`'s effect on both transient per-session structures, when the
session's structures already exist (as they do after any prior attach; a
fresh session first gets empty structures, i.e. this with `conns = []`,
`ps = []`).  The all-string presence mapping cannot raise, so `connect`
returns successfully. -/
theorem connect_state (ext : Externals) (env : Env) (st : SysState)
    (session_id user_id : String) (info : UserInfo) (ch : Nat)
    (conns : List (String × Nat)) (ps : List String)
    (hconns : dictLookup st.active_connections session_id = some conns)
    (hparts : dictLookup st.session_participants session_id = some ps) :
    ∃ out : ConnectOut, connect ext env st session_id user_id info ch = .ok out ∧
      out.st.active_connections =
        dictInsert session_id (dictInsert user_id ch conns) st.active_connections ∧
      out.st.session_participants =
        dictInsert session_id (setAdd user_id ps) st.session_participants := by
  simp only [connect, set_presence_strings]
  refine ⟨_, rfl, ?_, ?_⟩
  · simp [hconns, add_participant]
  · simp [hconns, hparts, add_participant]

/-- A fresh session is lazily normalized: attaching to a session with no
transient structures behaves exactly as attaching to one with empty
structures. -/
theorem connect_lazy_create (ext : Externals) (env : Env) (st : SysState)
    (session_id user_id : String) (info : UserInfo) (ch : Nat)
    (habs : dictLookup st.active_connections session_id = none) :
    connect ext env st session_id user_id info ch =
      connect ext env
        { st with
            active_connections := dictInsert session_id [] st.active_connections,
            session_participants := dictInsert session_id [] st.session_participants }
        session_id user_id info ch := by
  unfold connect
  simp [habs, dictLookup_insert_self]

/-- `disconnect`'s effect, when the session's structures exist: the user's
channel and participant entries are removed; when the connection dict
empties, both per-session structures are deleted; `user_left` is broadcast
over the post-removal state, so exactly to the remaining connections. -/
theorem disconnect_lookup (ext : Externals) (env : Env) (st : SysState)
    (session_id user_id : String) (l : List (String × Nat)) (ps : List String)
    (hconns : dictLookup st.active_connections session_id = some l)
    (hparts : dictLookup st.session_participants session_id = some ps)
    (hnodupA : (st.active_connections.map Prod.fst).Nodup)
    (hnodupP : (st.session_participants.map Prod.fst).Nodup) :
    dictLookup (disconnect ext env st session_id user_id).1.active_connections
        session_id =
      (if dictErase user_id l = [] then none else some (dictErase user_id l)) ∧
    dictLookup (disconnect ext env st session_id user_id).1.session_participants
        session_id =
      (if dictErase user_id l = [] then none else some (setDiscard user_id ps)) ∧
    (disconnect ext env st session_id user_id).2 =
      broadcastList ext.fails (userLeftMsg env user_id) none
        (if dictErase user_id l = [] then [] else dictErase user_id l) := by
  unfold disconnect
  simp only [hconns, hparts, Option.getD_some]
  by_cases h : dictErase user_id l = []
  · rw [if_pos h]
    refine ⟨?_, ?_, ?_⟩
    · rw [if_pos h]
      simp only [remove_participant]
      exact dictLookup_erase_self session_id _
        (nodup_keys_dictInsert session_id _ _ hnodupA)
    · rw [if_pos h]
      simp only [remove_participant]
      exact dictLookup_erase_self session_id _
        (nodup_keys_dictInsert session_id _ _ hnodupP)
    · rw [if_pos h]
      have hnone : dictLookup
          (dictErase session_id (dictInsert session_id (dictErase user_id l)
            st.active_connections)) session_id = none :=
        dictLookup_erase_self session_id _
          (nodup_keys_dictInsert session_id _ _ hnodupA)
      unfold broadcast_to_session
      simp only [remove_participant]
      rw [hnone]
      rfl
  · rw [if_neg h]
    refine ⟨?_, ?_, ?_⟩
    · rw [if_neg h]
      simp only [remove_participant]
      exact dictLookup_insert_self _ _ _
    · rw [if_neg h]
      simp only [remove_participant]
      exact dictLookup_insert_self _ _ _
    · rw [if_neg h]
      have hlk : dictLookup (dictInsert session_id (dictErase user_id l)
          st.active_connections) session_id = some (dictErase user_id l) :=
        dictLookup_insert_self _ _ _
      have := broadcast_to_session_eq ext.fails
        { st with
            active_connections :=
              dictInsert session_id (dictErase user_id l) st.active_connections,
            session_participants :=
              dictInsert session_id (setDiscard user_id ps) st.session_participants,
            redis_participants :=
              dictInsert session_id
                (setDiscard user_id
                  ((dictLookup st.redis_participants session_id).getD []))
                st.redis_participants }
        session_id (userLeftMsg env user_id) none (dictErase user_id l) hlk
      simpa [remove_participant, userLeftMsg] using this

/-- C9: after an attach followed by a detach for the same (session, user),
the user is absent from `members(session)`; if the user was the last
attached member, the session's two transient structures no longer exist
(both per-session dict entries are deleted); and the `user_left` event is
emitted exactly once to each remaining connection — and never to the
detached user. -/
theorem c9_attach_then_detach_removes_user
    (ext : Externals) (env1 env2 : Env) (st : SysState) (session_id user_id : String)
    (info : UserInfo) (ch : Nat) (conns : List (String × Nat)) (ps : List String)
    (hconns : dictLookup st.active_connections session_id = some conns)
    (hparts : dictLookup st.session_participants session_id = some ps)
    (hnodupA : (st.active_connections.map Prod.fst).Nodup)
    (hnodupP : (st.session_participants.map Prod.fst).Nodup)
    (hnodupL : (conns.map Prod.fst).Nodup) :
    ∃ out : ConnectOut,
      connect ext env1 st session_id user_id info ch = .ok out ∧
      user_id ∉ get_session_users
        (disconnect ext env2 out.st session_id user_id).1 session_id ∧
      (dictErase user_id (dictInsert user_id ch conns) = [] →
        dictLookup (disconnect ext env2 out.st
            session_id user_id).1.active_connections session_id = none ∧
        dictLookup (disconnect ext env2 out.st
            session_id user_id).1.session_participants session_id = none) ∧
      (∀ s ∈ (disconnect ext env2 out.st session_id user_id).2,
        s.target ≠ user_id ∧ s.event = userLeftMsg env2 user_id) ∧
      (∀ pc ∈ dictErase user_id (dictInsert user_id ch conns),
        ((disconnect ext env2 out.st session_id user_id).2).filter
            (fun s => s.target = pc.1) =
          [⟨pc.1, pc.2, userLeftMsg env2 user_id, !ext.fails pc.2⟩]) := by
  obtain ⟨out, hok, hA, hP⟩ :=
    connect_state ext env1 st session_id user_id info ch conns ps hconns hparts
  refine ⟨out, hok, ?_, ?_, ?_, ?_⟩
  all_goals
    (have hC1 : dictLookup out.st.active_connections session_id =
        some (dictInsert user_id ch conns) := by
      rw [hA]; exact dictLookup_insert_self _ _ _
     have hP1 : dictLookup out.st.session_participants session_id =
        some (setAdd user_id ps) := by
      rw [hP]; exact dictLookup_insert_self _ _ _
     have hnodupA1 : (out.st.active_connections.map Prod.fst).Nodup := by
      rw [hA]; exact nodup_keys_dictInsert _ _ _ hnodupA
     have hnodupP1 : (out.st.session_participants.map Prod.fst).Nodup := by
      rw [hP]; exact nodup_keys_dictInsert _ _ _ hnodupP
     have hnodupL1 : ((dictInsert user_id ch conns).map Prod.fst).Nodup :=
      nodup_keys_dictInsert _ _ _ hnodupL
     obtain ⟨hd1, hd2, hd3⟩ := disconnect_lookup ext env2 out.st session_id user_id
      (dictInsert user_id ch conns) (setAdd user_id ps) hC1 hP1 hnodupA1 hnodupP1
     have huid_gone : user_id ∉ (dictErase user_id
        (dictInsert user_id ch conns)).map Prod.fst :=
      not_mem_keys_of_dictLookup_none _ _ (dictLookup_erase_self _ _ hnodupL1))
  · unfold get_session_users
    rw [hd2]
    by_cases hL : dictErase user_id (dictInsert user_id ch conns) = []
    · rw [if_pos hL]
      simp
    · rw [if_neg hL]
      simp only [Option.getD_some]
      intro hc
      exact ((mem_setDiscard user_id user_id (setAdd user_id ps)).mp hc).2 rfl
  · intro hL
    rw [if_pos hL] at hd1 hd2
    exact ⟨hd1, hd2⟩
  · intro s hs
    rw [hd3] at hs
    by_cases hL : dictErase user_id (dictInsert user_id ch conns) = []
    · rw [if_pos hL] at hs
      cases hs
    · rw [if_neg hL] at hs
      obtain ⟨hmem, _, hev, _⟩ := broadcastList_mem _ _ _ _ s hs
      refine ⟨?_, hev⟩
      intro hc
      exact huid_gone (List.mem_map.mpr ⟨_, hmem, hc⟩)
  · intro pc hpc
    have hL : dictErase user_id (dictInsert user_id ch conns) ≠ [] := by
      intro hc
      rw [hc] at hpc
      cases hpc
    rw [hd3, if_neg hL]
    exact broadcastList_filter_target ext.fails (userLeftMsg env2 user_id) none _
      (nodup_keys_dictErase _ _ hnodupL1) pc hpc (by simp)

/-- Witness for C9: user "w" attaches to the empty session "s2" and then
detaches: "w" is gone from the members, and — having been the last member —
both per-session transient structures are deleted. -/
theorem c9_witness :
    ∃ out : ConnectOut,
      connect Externals.quiet ⟨"t0", "id0"⟩
        ⟨[("s2", [])], [("s2", [])], [], [], [], []⟩ "s2" "w" {} 7 = .ok out ∧
      "w" ∉ get_session_users
        (disconnect Externals.quiet ⟨"t1", "id1"⟩ out.st "s2" "w").1 "s2" ∧
      dictLookup (disconnect Externals.quiet ⟨"t1", "id1"⟩ out.st
        "s2" "w").1.active_connections "s2" = none ∧
      dictLookup (disconnect Externals.quiet ⟨"t1", "id1"⟩ out.st
        "s2" "w").1.session_participants "s2" = none := by
  obtain ⟨out, hok, h1, h2, _, _⟩ := c9_attach_then_detach_removes_user
    Externals.quiet ⟨"t0", "id0"⟩ ⟨"t1", "id1"⟩
    ⟨[("s2", [])], [("s2", [])], [], [], [], []⟩ "s2" "w" {} 7 [] []
    rfl rfl (by decide) (by decide) (by decide)
  exact ⟨out, hok, h1, (h2 (by decide)).1, (h2 (by decide)).2⟩

/-! ## Handler exceptions at the endpoint (C4) -/

/-- Every send a broadcast makes carries the broadcast message. -/
theorem broadcast_event (fails : Nat → Bool) (st : SysState) (session_id : String)
    (message : Msg) (exclude : Option String) :
    ∀ s ∈ broadcast_to_session fails st session_id message exclude,
      s.event = message := by
  intro s hs
  unfold broadcast_to_session at hs
  split at hs
  · cases hs
  · rename_i conns heq
    rw [show conns.foldl (broadcastStep fails message exclude) [] =
          broadcastList fails message exclude conns from by
        simpa using foldl_broadcastStep fails message exclude conns []] at hs
    exact (broadcastList_mem _ _ _ _ s hs).2.2.1

/-- Everything `disconnect` sends is the `user_left` event. -/
theorem disconnect_sends_user_left (ext : Externals) (env : Env) (st : SysState)
    (session_id user_id : String) :
    ∀ s ∈ (disconnect ext env st session_id user_id).2,
      s.event = userLeftMsg env user_id := by
  intro s hs
  unfold disconnect at hs
  dsimp only at hs
  exact broadcast_event ext.fails _ session_id (userLeftMsg env user_id) none s hs

/-- `disconnect` leaves every other session's connection entry unchanged. -/
theorem disconnect_other_sessions (ext : Externals) (env : Env) (st : SysState)
    (session_id user_id k : String) (hk : k ≠ session_id) :
    dictLookup (disconnect ext env st session_id user_id).1.active_connections k =
      dictLookup st.active_connections k := by
  unfold disconnect
  cases hc : dictLookup st.active_connections session_id with
  | none => simp [remove_participant]
  | some l =>
    simp only [hc]
    by_cases h : dictErase user_id l = []
    · rw [if_pos h]
      simp only [remove_participant]
      rw [dictLookup_erase_ne _ _ _ hk, dictLookup_insert_ne _ _ _ _ hk]
    · rw [if_neg h]
      simp only [remove_participant]
      rw [dictLookup_insert_ne _ _ _ _ hk]

/-- An agent outage: `agent.process_message` raises. -/
def failingAgentExt : Externals :=
  { Externals.quiet with agent := fun _ _ _ _ _ _ => .error "agent unavailable" }

/-- An `ai_message` envelope whose handling will hit the failing agent. -/
def c4Data : List (String × PVal) :=
  [("type", .j (.str "ai_message")), ("payload", .dict [("message", .str "hi")])]

/-- Counterexample to C4 as stated: with the agent raising, handling the
`ai_message` from "u" makes `websocket_endpoint`'s catch-all disconnect the
sender — the connection IS terminated — and no event of type "error" is
sent to anyone, so the sender gets no private error notification. -/
theorem c4_counterexample :
    (websocket_endpoint_step failingAgentExt ⟨"t0", "id0"⟩ exampleState "s" "u" {}
      c4Data).2.2 = true ∧
    ∀ s ∈ (websocket_endpoint_step failingAgentExt ⟨"t0", "id0"⟩ exampleState "s" "u" {}
      c4Data).2.1, s.event.type ≠ "error" := by
  constructor
  · rfl
  · decide

/-- C4 amended: when a handler invocation raises, the exception propagates
out of `handle_message` to the endpoint's catch-all `except`, which logs it
and calls `manager.disconnect`: the sender's connection is terminated, no
error notification is sent to the sender (the only events the endpoint
itself adds beyond what the handler had already sent are the disconnect's
`user_left` to the remaining members), and other sessions' connection
entries are untouched. -/
theorem c4_handler_exception_terminates_connection
    (ext : Externals) (env : Env) (st : SysState) (session_id user_id : String)
    (info : UserInfo) (data : List (String × PVal)) (e : String) (st1 : SysState)
    (sent : List Sent)
    (hexn : handle_message ext env st session_id user_id info data =
      .exn e st1 sent) :
    websocket_endpoint_step ext env st session_id user_id info data =
      ((disconnect ext env st1 session_id user_id).1,
       sent ++ (disconnect ext env st1 session_id user_id).2, true) ∧
    (∀ s ∈ (disconnect ext env st1 session_id user_id).2,
      s.event = userLeftMsg env user_id) ∧
    (∀ k, k ≠ session_id →
      dictLookup (disconnect ext env st1 session_id user_id).1.active_connections k =
        dictLookup st1.active_connections k) := by
  refine ⟨?_, disconnect_sends_user_left ext env st1 session_id user_id, ?_⟩
  · unfold websocket_endpoint_step
    rw [hexn]
  · intro k hk
    exact disconnect_other_sessions ext env st1 session_id user_id k hk

/-- The `ai_processing` status event broadcast before the agent call. -/
def aiProcessingMsg : Msg := ⟨"ai_processing", [("status", .j (.str "thinking"))], none⟩

/-- Witness for the amended C4: the concrete agent outage — the endpoint
step returns the disconnect result, the handler's pre-raise `ai_processing`
sends followed by the disconnect's sends, and the terminated flag. -/
theorem c4_witness :
    websocket_endpoint_step failingAgentExt ⟨"t0", "id0"⟩ exampleState "s" "u" {}
        c4Data =
      ((disconnect failingAgentExt ⟨"t0", "id0"⟩ exampleState "s" "u").1,
       [⟨"a", 1, aiProcessingMsg, true⟩, ⟨"b", 2, aiProcessingMsg, true⟩,
        ⟨"u", 3, aiProcessingMsg, true⟩] ++
         (disconnect failingAgentExt ⟨"t0", "id0"⟩ exampleState "s" "u").2, true) := by
  have h := c4_handler_exception_terminates_connection failingAgentExt ⟨"t0", "id0"⟩
    exampleState "s" "u" {} c4Data "agent unavailable" exampleState
    [⟨"a", 1, aiProcessingMsg, true⟩, ⟨"b", 2, aiProcessingMsg, true⟩,
     ⟨"u", 3, aiProcessingMsg, true⟩] rfl
  exact h.1
